import Mathlib

/-
Verification of the BladeBlade2 simulation core (src/components.rs, src/game.rs).

Shallow embedding conventions:
* Rust `f32`/`f64` values are modelled as rationals (`ℚ`); the claims under
  study (clamping, threshold comparisons, linear formulas) are about exact
  ordered-field arithmetic, not about rounding of binary floats.
* Rust `i32`/`i64` are modelled as `ℤ`; Rust integer division truncates
  toward zero, modelled with `Int.tdiv`.
* `rng.gen_bool`/`gen_range` draws are modelled either as an explicit oracle
  record (for `Stats::apply_damage`, whose claims quantify over all roll
  outcomes) or as a deterministic stream of naturals (for `generate_item`).
* Fallible operations (panics such as `unreachable!()` and `unwrap()`, and
  the unbounded probabilistic retry loops) are modelled with `Except`/fuel.
-/

namespace BladeBlade

/-- Modelled from the spec: `utils::min` (not under src/), the two-argument
minimum used for the stat clamps. -/
def umin (a b : ℚ) : ℚ := min a b

/-- Modelled from the spec: `utils::max` (not under src/), the two-argument
maximum used by damage flooring and rate aggregation. -/
def umax (a b : ℚ) : ℚ := max a b

/-- Modelled from the spec: `utils::clamp` (not under src/); the spec says the
elemental resistances are "floored at −1.0 and capped at +0.75". -/
def uclamp (x lo hi : ℚ) : ℚ := umax lo (umin hi x)

/-- Modelled from the spec: `utils::DT` (not under src/), the fixed timestep
of the 60Hz-equivalent simulation loop. -/
def DT : ℚ := 1 / 60

/-- Team affiliation (components.rs, enum Team). -/
inductive Team where
  | Player
  | Enemy
  | Neutral
deriving DecidableEq, Repr

/-- Team::can_damage (components.rs). -/
def Team.can_damage (t : Team) (other : Team) : Bool :=
  match t, other with
  | .Player, .Enemy => true
  | .Enemy, .Player => true
  | _, _ => false

/-- CollisionKind (components.rs). -/
inductive CollisionKind where
  | BigEnemy
  | BigPlayer
  | SmallEnemy
  | SmallPlayer
  | World
  | Platform
deriving DecidableEq, Repr

/-- CollisionKind::collides_with (components.rs lines 176-222), the explicit
36-entry pairwise table. -/
def CollisionKind.collides_with (k : CollisionKind) (other : CollisionKind) : Bool :=
  match k, other with
  | .BigEnemy, .BigEnemy => true
  | .BigEnemy, .BigPlayer => true
  | .BigEnemy, .SmallEnemy => false
  | .BigEnemy, .SmallPlayer => true
  | .BigEnemy, .World => true
  | .BigEnemy, .Platform => true

  | .BigPlayer, .BigEnemy => true
  | .BigPlayer, .BigPlayer => true
  | .BigPlayer, .SmallEnemy => true
  | .BigPlayer, .SmallPlayer => false
  | .BigPlayer, .World => true
  | .BigPlayer, .Platform => true

  | .SmallEnemy, .BigEnemy => false
  | .SmallEnemy, .BigPlayer => true
  | .SmallEnemy, .SmallEnemy => false
  | .SmallEnemy, .SmallPlayer => false
  | .SmallEnemy, .World => true
  | .SmallEnemy, .Platform => true

  | .SmallPlayer, .BigEnemy => true
  | .SmallPlayer, .BigPlayer => false
  | .SmallPlayer, .SmallEnemy => false
  | .SmallPlayer, .SmallPlayer => false
  | .SmallPlayer, .World => true
  | .SmallPlayer, .Platform => true

  | .World, .BigEnemy => true
  | .World, .BigPlayer => true
  | .World, .SmallEnemy => true
  | .World, .SmallPlayer => true
  | .World, .World => false
  | .World, .Platform => false

  | .Platform, .BigEnemy => true
  | .Platform, .BigPlayer => true
  | .Platform, .SmallEnemy => true
  | .Platform, .SmallPlayer => true
  | .Platform, .World => false
  | .Platform, .Platform => false

/-- EffectAndDuration (components.rs). -/
structure EffectAndDuration where
  effect : ℚ
  duration : ℚ
deriving DecidableEq, Repr

/-- EffectAndDuration::new (components.rs). -/
def EffectAndDuration.new : EffectAndDuration := { effect := 0, duration := 0 }

/-- EffectAndDuration::active (components.rs): `self.effect > 0. && self.duration > 0.`. -/
def EffectAndDuration.active (e : EffectAndDuration) : Bool :=
  decide (0 < e.effect) && decide (0 < e.duration)

/-- StatValues (components.rs lines 324-373): the flat record of every
numeric combat/movement stat; `f32` fields become `ℚ`. -/
structure StatValues where
  speed : ℚ
  acceleration : ℚ
  jump_strength : ℚ
  team : Team

  max_life : ℚ
  life_regen : ℚ
  max_mana : ℚ
  mana_regen : ℚ

  armor : ℚ

  area_of_effect : ℚ
  cast_speed : ℚ
  skill_duration : ℚ
  critical_chance : ℚ
  critical_multiplier : ℚ

  physical_damage : ℚ
  cold_damage : ℚ
  fire_damage : ℚ
  lightning_damage : ℚ

  physical_resistance : ℚ
  cold_resistance : ℚ
  fire_resistance : ℚ
  lightning_resistance : ℚ

  life_leech : ℚ
  mana_leech : ℚ
  chance_to_ignite : ℚ
  chance_to_freeze : ℚ
  chance_to_shock : ℚ

  freeze_propagate_value : ℚ
  ignite_propagate_value : EffectAndDuration
  shock_propagate_value : EffectAndDuration

  increased_physical_damage : ℚ
  multishot : Bool
  explode_on_death : Bool
  freeze_propagate : Bool
  ignite_propagate : Bool
  shock_propagate : Bool

  is_invincible : Bool

/-- Default for StatValues (components.rs lines 375-428): all numbers zero,
all flags false, team Enemy. -/
def StatValues.default : StatValues where
  speed := 0
  acceleration := 0
  jump_strength := 0
  team := .Enemy
  max_life := 0
  life_regen := 0
  max_mana := 0
  mana_regen := 0
  armor := 0
  area_of_effect := 0
  cast_speed := 0
  skill_duration := 0
  critical_chance := 0
  critical_multiplier := 0
  physical_damage := 0
  cold_damage := 0
  fire_damage := 0
  lightning_damage := 0
  physical_resistance := 0
  cold_resistance := 0
  fire_resistance := 0
  lightning_resistance := 0
  life_leech := 0
  mana_leech := 0
  chance_to_ignite := 0
  chance_to_freeze := 0
  chance_to_shock := 0
  freeze_propagate_value := 0
  ignite_propagate_value := EffectAndDuration.new
  shock_propagate_value := EffectAndDuration.new
  increased_physical_damage := 0
  multishot := false
  explode_on_death := false
  freeze_propagate := false
  ignite_propagate := false
  shock_propagate := false
  is_invincible := false

/-- RateInstance (components.rs): a per-tick rate plus an expiry timestamp. -/
structure RateInstance where
  rate : ℚ
  time_to_remove : ℚ
deriving DecidableEq, Repr

/-- Material (components.rs). -/
inductive Material where
  | Default
  | Frozen
  | Lit
deriving DecidableEq, Repr

/-- Appearance (components.rs); the external `sprite::AnimationState` is
modelled by the name of its current animation. -/
structure Appearance where
  sprite : String
  palette : Option String
  animation_state : String
  material : Material
  speed : ℚ
  bias : ℤ

/-- Appearance::new_with_bias (components.rs). -/
def Appearance.new_with_bias (sprite : String) (bias : ℤ) : Appearance where
  sprite := sprite
  palette := none
  animation_state := "Default"
  speed := 1
  material := .Default
  bias := bias

/-- Appearance::new (components.rs). -/
def Appearance.new (sprite : String) : Appearance := Appearance.new_with_bias sprite 0

/-- ItemKind (components.rs): Red = 0, Green = 1, Blue = 2. -/
inductive ItemKind where
  | Red
  | Green
  | Blue
deriving DecidableEq, Repr

/-- ItemKind::to_str (components.rs). -/
def ItemKind.to_str (k : ItemKind) : String :=
  match k with
  | .Red => "Ruby Ring"
  | .Green => "Emerald Ring"
  | .Blue => "Sapphire Ring"

/-- Rarity (components.rs). -/
inductive Rarity where
  | Normal
  | Magic
  | Rare
  | Unique
deriving DecidableEq, Repr

/-- ItemPrefix (components.rs lines 1163-1186), in declaration order (the
derived `Ord` used by `sort_by_key` is this declaration order). -/
inductive ItemPrefix where
  | Life
  | LifeRegen
  | AddedPhysicalDamage
  | AddedColdDamage
  | AddedFireDamage
  | AddedLightningDamage
  | CriticalChance
  | ChanceToFreeze
  | ChanceToIgnite
  | ChanceToShock
  | Mana
  | ManaRegen
  | AreaOfEffect
  | CastSpeed
  | MoveSpeed
  | MultiShot
  | ExplodeOnDeath
  | FreezePropagate
  | IgnitePropagate
  | ShockPropagate
deriving DecidableEq, Repr

/-- Discriminant of ItemPrefix in declaration order, for the derived `Ord`. -/
def ItemPrefix.idx (p : ItemPrefix) : Nat :=
  match p with
  | .Life => 0
  | .LifeRegen => 1
  | .AddedPhysicalDamage => 2
  | .AddedColdDamage => 3
  | .AddedFireDamage => 4
  | .AddedLightningDamage => 5
  | .CriticalChance => 6
  | .ChanceToFreeze => 7
  | .ChanceToIgnite => 8
  | .ChanceToShock => 9
  | .Mana => 10
  | .ManaRegen => 11
  | .AreaOfEffect => 12
  | .CastSpeed => 13
  | .MoveSpeed => 14
  | .MultiShot => 15
  | .ExplodeOnDeath => 16
  | .FreezePropagate => 17
  | .IgnitePropagate => 18
  | .ShockPropagate => 19

/-- ItemPrefix::to_str (components.rs). -/
def ItemPrefix.to_str (p : ItemPrefix) : String :=
  match p with
  | .Life => "Jolly"
  | .LifeRegen => "Hale"
  | .AddedPhysicalDamage => "Bladed"
  | .AddedColdDamage => "Icy"
  | .AddedFireDamage => "Blazing"
  | .AddedLightningDamage => "Sparking"
  | .CriticalChance => "Elven"
  | .ChanceToFreeze => "Chilling"
  | .ChanceToIgnite => "Flaming"
  | .ChanceToShock => "Zapping"
  | .Mana => "Clever"
  | .ManaRegen => "Meditating"
  | .AreaOfEffect => "Engorged"
  | .CastSpeed => "Animated"
  | .MoveSpeed => "Fast"
  | .MultiShot => "MultiShot"
  | .ExplodeOnDeath => "ExplodeOnDeath"
  | .FreezePropagate => "FreezePropagate"
  | .IgnitePropagate => "IgnitePropagate"
  | .ShockPropagate => "ShockPropagate"

/-- The per-kind `(delta, mult)` pair from ItemPrefix::get_value
(components.rs lines 1220-1242). -/
def ItemPrefix.deltaMult (p : ItemPrefix) : ℚ × ℚ :=
  match p with
  | .Life => (20, 1)
  | .LifeRegen => (1, 1)
  | .AddedPhysicalDamage => (2, 1)
  | .AddedColdDamage => (2, 1)
  | .AddedFireDamage => (2, 1)
  | .AddedLightningDamage => (2, 1)
  | .CriticalChance => (1/10, 1/100)
  | .ChanceToFreeze => (1/50, 1/100)
  | .ChanceToIgnite => (1/50, 1/100)
  | .ChanceToShock => (1/50, 1/100)
  | .Mana => (20, 1)
  | .ManaRegen => (2, 1)
  | .AreaOfEffect => (1/20, 1/100)
  | .CastSpeed => (1/20, 1/100)
  | .MoveSpeed => (1/100, 1/100)
  | .MultiShot => (1/10, 1/100)
  | .ExplodeOnDeath => (1/10, 1/100)
  | .FreezePropagate => (1/10, 1/100)
  | .IgnitePropagate => (1/10, 1/100)
  | .ShockPropagate => (1/10, 1/100)

/-- ItemPrefix::get_value (components.rs lines 1217-1247):
`start = delta*tier`, `end = delta*(tier+1)`, `raw = start + frac*(end-start)`,
result `ceil(raw/mult)*mult`. -/
def ItemPrefix.get_value (p : ItemPrefix) (tier : ℤ) (frac : ℚ) : ℚ :=
  let t : ℚ := (tier : ℚ)
  let dm := p.deltaMult
  let start := dm.1 * t
  let stop := dm.1 * (t + 1)
  let raw := start + frac * (stop - start)
  ((⌈raw / dm.2⌉ : ℤ) : ℚ) * dm.2

/-- ItemPrefix::apply (components.rs lines 1310-1396): routes the derived
value into the `adds` or `increases` accumulator (or sets a boolean flag).
Returns the updated `(adds, increases)` pair. -/
def ItemPrefix.apply (p : ItemPrefix) (tier : ℤ) (frac : ℚ)
    (adds increases : StatValues) : StatValues × StatValues :=
  let value := p.get_value tier frac
  match p with
  | .Life => ({ adds with max_life := adds.max_life + value }, increases)
  | .LifeRegen => ({ adds with life_regen := adds.life_regen + value }, increases)
  | .AddedPhysicalDamage =>
      ({ adds with physical_damage := adds.physical_damage + value }, increases)
  | .AddedColdDamage => ({ adds with cold_damage := adds.cold_damage + value }, increases)
  | .AddedFireDamage => ({ adds with fire_damage := adds.fire_damage + value }, increases)
  | .AddedLightningDamage =>
      ({ adds with lightning_damage := adds.lightning_damage + value }, increases)
  | .CriticalChance =>
      (adds, { increases with critical_chance := increases.critical_chance + value })
  | .ChanceToFreeze =>
      ({ adds with chance_to_freeze := adds.chance_to_freeze + value }, increases)
  | .ChanceToIgnite =>
      ({ adds with chance_to_ignite := adds.chance_to_ignite + value }, increases)
  | .ChanceToShock =>
      ({ adds with chance_to_shock := adds.chance_to_shock + value }, increases)
  | .Mana => ({ adds with max_mana := adds.max_mana + value }, increases)
  | .ManaRegen => ({ adds with mana_regen := adds.mana_regen + value }, increases)
  | .AreaOfEffect =>
      (adds, { increases with area_of_effect := increases.area_of_effect + value })
  | .CastSpeed => (adds, { increases with cast_speed := increases.cast_speed + value })
  | .MoveSpeed => (adds, { increases with speed := increases.speed + value })
  | .MultiShot => ({ adds with multishot := true }, increases)
  | .ExplodeOnDeath => ({ adds with explode_on_death := true }, increases)
  | .FreezePropagate => ({ adds with freeze_propagate := true }, increases)
  | .IgnitePropagate => ({ adds with ignite_propagate := true }, increases)
  | .ShockPropagate => ({ adds with shock_propagate := true }, increases)

/-- ItemSuffix (components.rs lines 1399-1416), discriminants 0-12. -/
inductive ItemSuffix where
  | Armour
  | PhysicalResistance
  | ColdResistance
  | FireResistance
  | LightningResistance
  | CriticalMultiplier
  | IncreasedPhysicalDamage
  | IncreasedColdDamage
  | IncreasedFireDamage
  | IncreasedLightningDamage
  | LifeLeech
  | ManaLeech
  | Duration
deriving DecidableEq, Repr

/-- Discriminant of ItemSuffix (its explicit `repr(i32)` values 0-12). -/
def ItemSuffix.idx (s : ItemSuffix) : Nat :=
  match s with
  | .Armour => 0
  | .PhysicalResistance => 1
  | .ColdResistance => 2
  | .FireResistance => 3
  | .LightningResistance => 4
  | .CriticalMultiplier => 5
  | .IncreasedPhysicalDamage => 6
  | .IncreasedColdDamage => 7
  | .IncreasedFireDamage => 8
  | .IncreasedLightningDamage => 9
  | .LifeLeech => 10
  | .ManaLeech => 11
  | .Duration => 12

/-- ItemSuffix::to_str (components.rs). -/
def ItemSuffix.to_str (s : ItemSuffix) : String :=
  match s with
  | .Armour => "of Iron"
  | .PhysicalResistance => "of Fortitude"
  | .ColdResistance => "of the Penguin"
  | .FireResistance => "of the Salamander"
  | .LightningResistance => "of the Eel"
  | .CriticalMultiplier => "of Misfortune"
  | .IncreasedPhysicalDamage => "of Blades"
  | .IncreasedColdDamage => "of the Iceberg"
  | .IncreasedFireDamage => "of the Hearth"
  | .IncreasedLightningDamage => "of the Turbine"
  | .LifeLeech => "of the Vampire"
  | .ManaLeech => "of the Wight"
  | .Duration => "of Time"

/-- The per-kind `(delta, mult)` pair from ItemSuffix::get_value
(components.rs lines 1443-1458). -/
def ItemSuffix.deltaMult (s : ItemSuffix) : ℚ × ℚ :=
  match s with
  | .Armour => (5, 1)
  | .PhysicalResistance => (1/100, 1/100)
  | .ColdResistance => (1/10, 1/100)
  | .FireResistance => (1/10, 1/100)
  | .LightningResistance => (1/10, 1/100)
  | .CriticalMultiplier => (1/20, 1/100)
  | .IncreasedPhysicalDamage => (1/20, 1/100)
  | .IncreasedColdDamage => (1/10, 1/100)
  | .IncreasedFireDamage => (1/10, 1/100)
  | .IncreasedLightningDamage => (1/10, 1/100)
  | .LifeLeech => (1/100, 1/100)
  | .ManaLeech => (1/100, 1/100)
  | .Duration => (1/50, 1/100)

/-- ItemSuffix::get_value (components.rs lines 1440-1463); same interpolation
and ceiling-rounding shape as the prefix version. -/
def ItemSuffix.get_value (s : ItemSuffix) (tier : ℤ) (frac : ℚ) : ℚ :=
  let t : ℚ := (tier : ℚ)
  let dm := s.deltaMult
  let start := dm.1 * t
  let stop := dm.1 * (t + 1)
  let raw := start + frac * (stop - start)
  ((⌈raw / dm.2⌉ : ℤ) : ℚ) * dm.2

/-- ItemSuffix::apply (components.rs lines 1498-1556). -/
def ItemSuffix.apply (s : ItemSuffix) (tier : ℤ) (frac : ℚ)
    (adds increases : StatValues) : StatValues × StatValues :=
  let value := s.get_value tier frac
  match s with
  | .Armour => ({ adds with armor := adds.armor + value }, increases)
  | .PhysicalResistance =>
      ({ adds with physical_resistance := adds.physical_resistance + value }, increases)
  | .ColdResistance =>
      ({ adds with cold_resistance := adds.cold_resistance + value }, increases)
  | .FireResistance =>
      ({ adds with fire_resistance := adds.fire_resistance + value }, increases)
  | .LightningResistance =>
      ({ adds with lightning_resistance := adds.lightning_resistance + value }, increases)
  | .CriticalMultiplier =>
      ({ adds with critical_multiplier := adds.critical_multiplier + value }, increases)
  | .IncreasedPhysicalDamage =>
      (adds, { increases with physical_damage := increases.physical_damage + value })
  | .IncreasedColdDamage =>
      (adds, { increases with cold_damage := increases.cold_damage + value })
  | .IncreasedFireDamage =>
      (adds, { increases with fire_damage := increases.fire_damage + value })
  | .IncreasedLightningDamage =>
      (adds, { increases with lightning_damage := increases.lightning_damage + value })
  | .LifeLeech => ({ adds with life_leech := adds.life_leech + value }, increases)
  | .ManaLeech => ({ adds with mana_leech := adds.mana_leech + value }, increases)
  | .Duration =>
      (adds, { increases with skill_duration := increases.skill_duration + value })

/-- Item (components.rs lines 1568-1576): rolled affixes are triples
`(kind, tier, fraction)`. -/
structure Item where
  name : List String
  appearance : Appearance
  rarity : Rarity
  prefixes : List (ItemPrefix × ℤ × ℚ)
  suffixes : List (ItemSuffix × ℤ × ℚ)

/-- Inventory (components.rs lines 1578-1592): the source type is
`[Option<Item>; 9]`; the fixed length 9 is a hypothesis where it matters. -/
structure Inventory where
  slots : List (Option Item)

/-- Inventory::new (components.rs): nine empty slots. -/
def Inventory.new : Inventory :=
  { slots := [none, none, none, none, none, none, none, none, none] }

/-- Stats (components.rs lines 576-596): runtime combat state. -/
structure Stats where
  base_values : StatValues
  values : StatValues
  attacking : Bool
  life : ℚ
  mana : ℚ
  old_max_life : ℚ
  old_max_mana : ℚ
  dead : Bool
  exploded : Bool
  life_leech_instances : List RateInstance
  mana_leech_instances : List RateInstance
  ignite_instances : List RateInstance
  shock_instances : List RateInstance
  freeze_time : ℚ

/-- Stats::new (components.rs lines 600-618). -/
def Stats.new (base_values : StatValues) : Stats where
  base_values := base_values
  values := base_values
  attacking := false
  life := base_values.max_life
  mana := base_values.max_mana
  old_max_life := base_values.max_life
  old_max_mana := base_values.max_mana
  dead := false
  exploded := false
  life_leech_instances := []
  mana_leech_instances := []
  ignite_instances := []
  shock_instances := []
  freeze_time := 0

/-- The inner body of the slot loop in Stats::reset: apply every rolled
prefix then every rolled suffix of one item to the accumulator pair. -/
def applyItemAffixes (item : Item) (ai : StatValues × StatValues) : StatValues × StatValues :=
  let ai := item.prefixes.foldl (fun ai p => p.1.apply p.2.1 p.2.2 ai.1 ai.2) ai
  item.suffixes.foldl (fun ai s => s.1.apply s.2.1 s.2.2 ai.1 ai.2) ai

/-- One step of the slot loop of Stats::reset: occupied slots contribute
their item's affixes, empty slots contribute nothing. -/
def slotStep (ai : StatValues × StatValues) (slot : Option Item) : StatValues × StatValues :=
  match slot with
  | none => ai
  | some item => applyItemAffixes item ai

/-- The slot loop of Stats::reset over a list of inventory slots, starting
from `(StatValues.default, StatValues.default)`. -/
def slotFold (slots : List (Option Item)) : StatValues × StatValues :=
  slots.foldl slotStep (StatValues.default, StatValues.default)

/-- The effective-values computation of the inventory branch of
Stats::reset (components.rs lines 643-725): every numeric stat becomes
`(base + adds) * (1 + increases)`, boolean flags are OR'd in, then the
documented clamps are applied. `bv` is the base values, `v0` the current
effective values (equal to `bv` at the call site, mirroring the source's
`self.values = self.base_values` preceding the branch). -/
def resetInventoryValues (bv v0 : StatValues) (penalty : ℚ)
    (adds increases : StatValues) : StatValues :=
  let v := { v0 with
    speed := (bv.speed + adds.speed) * (1 + increases.speed)
    acceleration := (bv.acceleration + adds.acceleration) * (1 + increases.acceleration)
    jump_strength := (bv.jump_strength + adds.jump_strength) * (1 + increases.jump_strength)
    max_life := (bv.max_life + adds.max_life) * (1 + increases.max_life)
    life_regen := (bv.life_regen + adds.life_regen) * (1 + increases.life_regen)
    max_mana := (bv.max_mana + adds.max_mana) * (1 + increases.max_mana)
    mana_regen := (bv.mana_regen + adds.mana_regen) * (1 + increases.mana_regen)
    armor := (bv.armor + adds.armor) * (1 + increases.armor)
    area_of_effect := (bv.area_of_effect + adds.area_of_effect) * (1 + increases.area_of_effect)
    cast_speed := (bv.cast_speed + adds.cast_speed) * (1 + increases.cast_speed)
    skill_duration := (bv.skill_duration + adds.skill_duration) * (1 + increases.skill_duration)
    critical_chance :=
      (bv.critical_chance + adds.critical_chance) * (1 + increases.critical_chance)
    critical_multiplier :=
      (bv.critical_multiplier + adds.critical_multiplier) * (1 + increases.critical_multiplier)
    physical_damage :=
      (bv.physical_damage + adds.physical_damage) * (1 + increases.physical_damage)
    increased_physical_damage := increases.physical_damage
    cold_damage := (bv.cold_damage + adds.cold_damage) * (1 + increases.cold_damage)
    fire_damage := (bv.fire_damage + adds.fire_damage) * (1 + increases.fire_damage)
    lightning_damage :=
      (bv.lightning_damage + adds.lightning_damage) * (1 + increases.lightning_damage)
    physical_resistance :=
      (bv.physical_resistance + adds.physical_resistance) * (1 + increases.physical_resistance)
    cold_resistance :=
      (bv.cold_resistance + adds.cold_resistance) * (1 + increases.cold_resistance)
    fire_resistance :=
      (bv.fire_resistance + adds.fire_resistance) * (1 + increases.fire_resistance)
    lightning_resistance :=
      (bv.lightning_resistance + adds.lightning_resistance)
        * (1 + increases.lightning_resistance)
    life_leech := (bv.life_leech + adds.life_leech) * (1 + increases.life_leech)
    mana_leech := (bv.mana_leech + adds.mana_leech) * (1 + increases.mana_leech)
    chance_to_ignite :=
      (bv.chance_to_ignite + adds.chance_to_ignite) * (1 + increases.chance_to_ignite)
    chance_to_freeze :=
      (bv.chance_to_freeze + adds.chance_to_freeze) * (1 + increases.chance_to_freeze)
    chance_to_shock :=
      (bv.chance_to_shock + adds.chance_to_shock) * (1 + increases.chance_to_shock)
    multishot := v0.multishot || adds.multishot
    explode_on_death := v0.explode_on_death || adds.explode_on_death
    shock_propagate := v0.shock_propagate || adds.shock_propagate
    ignite_propagate := v0.ignite_propagate || adds.ignite_propagate
    freeze_propagate := v0.freeze_propagate || adds.freeze_propagate }
  let v := { v with critical_chance := umin 1 v.critical_chance }
  let v := { v with
    physical_resistance := umin (9/10) v.physical_resistance
    cold_resistance := uclamp (v.cold_resistance - penalty * (3/10)) (-1) (3/4)
    fire_resistance := uclamp (v.fire_resistance - penalty * (3/10)) (-1) (3/4)
    lightning_resistance := uclamp (v.lightning_resistance - penalty * (3/10)) (-1) (3/4) }
  { v with
    chance_to_shock := umin 1 v.chance_to_shock
    chance_to_ignite := umin 1 v.chance_to_ignite
    chance_to_freeze := umin 1 v.chance_to_freeze }

/-- The `if let Some(inventory)` branch of Stats::reset (components.rs
lines 625-734): fold the affixes of the first six slots, recompute and
clamp the effective values, then rescale the life and mana pools. -/
def resetApplyInventory (self : Stats) (penalty : ℚ) (inventory : Inventory) : Stats :=
  let ai := slotFold (inventory.slots.take 6)
  let v := resetInventoryValues self.base_values self.values penalty ai.1 ai.2
  let life := self.life * (v.max_life / self.old_max_life)
  let life := umin v.max_life life
  let mana := self.mana * (v.max_mana / self.old_max_mana)
  let mana := umin v.max_mana mana
  { self with values := v, life := life, old_max_life := v.max_life,
              mana := mana, old_max_mana := v.max_mana }

/-- The tail of Stats::reset (components.rs lines 736-751): while
attacking, zero acceleration and jump strength; when dead, force Neutral
team and floor life at 1; while frozen, zero cast speed, acceleration and
jump strength. -/
def resetPost (time : ℚ) (self : Stats) : Stats :=
  let self :=
    if self.attacking then
      { self with values := { self.values with acceleration := 0, jump_strength := 0 } }
    else self
  let self :=
    if self.dead then
      { self with values := { self.values with team := .Neutral }, life := 1 }
    else self
  if time < self.freeze_time then
    { self with values := { self.values with cast_speed := 0, acceleration := 0, jump_strength := 0 } }
  else self

/-- Stats::reset (components.rs lines 620-752), assembled from the pieces
above. Note that the source iterates over `&inventory.slots[..6]`, the
first six of the nine slots, and that the clamping block sits entirely
inside the `if let Some(inventory)` branch. Division follows Lean's
`x / 0 = 0` convention in the life/mana rescale (the source would produce
a non-finite float there); no claim depends on that corner. -/
def Stats.reset (self : Stats) (time : ℚ) (penalty_level : ℤ) (inventory : Option Inventory) :
    Stats :=
  let penalty : ℚ := ((penalty_level.tdiv 5 : ℤ) : ℚ)
  let self := { self with values := self.base_values }
  let self :=
    match inventory with
    | none => self
    | some inventory => resetApplyInventory self penalty inventory
  resetPost time self

/-- Outcomes of the up-to-four `rng.gen_bool` draws inside
Stats::apply_damage, as an explicit oracle: the crit roll and the three
status-chance rolls. -/
structure Rolls where
  crit : Bool
  freeze : Bool
  ignite : Bool
  shock : Bool
deriving DecidableEq, Repr

/-- The 6-tuple returned by Stats::apply_damage, in source order:
`(life_leech, mana_leech, explode_on_death, freeze_propagation,
ignite_propagation, shock_propagation)`. -/
structure DamageOutcome where
  life_leech : ℚ
  mana_leech : ℚ
  explode_on_death : Bool
  freeze_propagation : ℚ
  ignite_propagation : EffectAndDuration
  shock_propagation : EffectAndDuration
deriving DecidableEq, Repr

/-- The all-zero outcome of the dead/invincible short-circuit in
Stats::apply_damage. -/
def DamageOutcome.zero : DamageOutcome where
  life_leech := 0
  mana_leech := 0
  explode_on_death := false
  freeze_propagation := 0
  ignite_propagation := EffectAndDuration.new
  shock_propagation := EffectAndDuration.new

/-- The `.iter().map(|li| li.rate).reduce(utils::max).unwrap_or(0.)`
aggregation used on the status-instance lists. -/
def maxRate (l : List RateInstance) : ℚ :=
  match l.map (fun li => li.rate) with
  | [] => 0
  | x :: xs => xs.foldl umax x

/-- The `(crit, damage_mult)` pair from the crit roll at the top of
Stats::apply_damage (components.rs lines 769-776). -/
def critAndMult (values : StatValues) (r : Rolls) : Bool × ℚ :=
  if r.crit then (true, values.critical_multiplier) else (false, 1)

/-- The shock damage-amplification `shock_effect` of the defender
(components.rs lines 778-785): strongest active shock rate, scaled by
lightning resistance, divided by max life. -/
def shockEffectOf (self : Stats) : ℚ :=
  ((1 - self.values.lightning_resistance) * maxRate self.shock_instances) / self.values.max_life

/-- The final `damage_mult` (components.rs lines 787-794): crit multiplier,
further scaled by `(1 + shock_effect)` when the defender is shocked. -/
def damageMultOf (self : Stats) (values : StatValues) (r : Rolls) : ℚ :=
  let dm := (critAndMult values r).2
  if 0 < shockEffectOf self then dm * (1 + shockEffectOf self) else dm

/-- The `freeze_duration` computed in Stats::apply_damage (components.rs
lines 797-806): the cold-hit formula when cold damage is positive and the
roll (or a crit) succeeds, otherwise the attacker's propagated value. -/
def freezeDurationOf (self : Stats) (values : StatValues) (r : Rolls) : ℚ :=
  if decide (0 < values.cold_damage) && ((critAndMult values r).1 || r.freeze) then
    10 * damageMultOf self values r * values.skill_duration * values.cold_damage
      * (1 - self.values.cold_resistance) / self.values.max_life
  else values.freeze_propagate_value

/-- The `ignite` EffectAndDuration computed in Stats::apply_damage
(components.rs lines 813-820). -/
def igniteOf (self : Stats) (values : StatValues) (r : Rolls) : EffectAndDuration :=
  if decide (0 < values.fire_damage) && ((critAndMult values r).1 || r.ignite) then
    { effect := damageMultOf self values r * values.fire_damage * DT
      duration := values.skill_duration * 2 }
  else values.ignite_propagate_value

/-- The `shock` EffectAndDuration computed in Stats::apply_damage
(components.rs lines 830-837). -/
def shockOf (self : Stats) (values : StatValues) (r : Rolls) : EffectAndDuration :=
  if decide (0 < values.lightning_damage) && ((critAndMult values r).1 || r.shock) then
    { effect := damageMultOf self values r * values.lightning_damage
      duration := values.skill_duration * 2 }
  else values.shock_propagate_value

/-- Stats::apply_damage (components.rs lines 754-906): attacker stat
snapshot `values` against the defender `self`, at simulation time `time`,
with roll oracle `r`. Returns the updated defender and the result tuple. -/
def Stats.apply_damage (self : Stats) (values : StatValues) (time : ℚ) (r : Rolls) :
    Stats × DamageOutcome :=
  if self.dead || self.values.is_invincible then
    (self, DamageOutcome.zero)
  else
    let damage_mult := damageMultOf self values r
    let old_frozen : Bool := decide (time < self.freeze_time)
    let freeze_duration := freezeDurationOf self values r
    let self1 :=
      if 1/10 < freeze_duration then { self with freeze_time := time + freeze_duration }
      else self
    let old_ignited : Bool := !self1.ignite_instances.isEmpty
    let ignite := igniteOf self values r
    let self2 :=
      if ignite.active then
        { self1 with ignite_instances := self1.ignite_instances ++
            [{ rate := ignite.effect, time_to_remove := time + ignite.duration }] }
      else self1
    let old_shocked : Bool := !self2.shock_instances.isEmpty
    let shock := shockOf self values r
    let self3 :=
      if shock.active then
        { self2 with shock_instances := self2.shock_instances ++
            [{ rate := shock.effect, time_to_remove := time + shock.duration }] }
      else self2
    let extra_phys_resistance :=
      if 0 < self3.values.armor then
        self3.values.armor / (values.physical_damage + self3.values.armor)
      else 0
    let phys_resistance := umin (9/10) (self3.values.physical_resistance + extra_phys_resistance)
    let damage := values.physical_damage * (1 - phys_resistance)
      + values.cold_damage * (1 - self3.values.cold_resistance)
      + values.fire_damage * (1 - self3.values.fire_resistance)
      + values.lightning_damage * (1 - self3.values.lightning_resistance)
    let final_damage := damage_mult * damage
    let life_leech := final_damage * values.life_leech
    let mana_leech := final_damage * values.mana_leech
    let self4 := { self3 with life := umax 0 (self3.life - final_damage) }
    let explode := decide (self4.life = 0) && values.explode_on_death
    let self5 := if explode then { self4 with exploded := true } else self4
    let freeze_propagation :=
      if values.freeze_propagate && !old_frozen then freeze_duration else 0
    let ignite_propagation :=
      if values.ignite_propagate && !old_ignited then ignite else EffectAndDuration.new
    let shock_propagation :=
      if values.shock_propagate && !old_shocked then shock else EffectAndDuration.new
    (self5,
      { life_leech := life_leech
        mana_leech := mana_leech
        explode_on_death := explode
        freeze_propagation := freeze_propagation
        ignite_propagation := ignite_propagation
        shock_propagation := shock_propagation })

/-- Deterministic RNG model for generate_item: a stream of naturals and a
cursor. Each primitive draw consumes one stream element. -/
structure Rng where
  stream : Nat → Nat
  cursor : Nat

/-- Draw the next raw natural from the stream. -/
def Rng.next (r : Rng) : Nat × Rng :=
  (r.stream r.cursor, { r with cursor := r.cursor + 1 })

/-- Failure modes of the generator embedding: `panicked` models a Rust
panic (`unreachable!()`, a failed `unwrap`, an invalid `gen_range` range);
`fuelOut` models running out of fuel in one of the source's unbounded
probabilistic retry loops. -/
inductive GenErr where
  | panicked
  | fuelOut
deriving DecidableEq, Repr

/-- Model of `rng.gen_range(lo..=hi)` on integers: panics when the range is
empty (`hi < lo`), otherwise returns a value in `[lo, hi]`. -/
def genRangeIncl (lo hi : ℤ) (r : Rng) : Except GenErr (ℤ × Rng) :=
  if hi < lo then .error .panicked
  else
    let (n, r') := r.next
    .ok (lo + (n : ℤ) % (hi - lo + 1), r')

/-- Model of `rng.gen_range(lo..hi)` on integers: panics when the range is
empty (`hi ≤ lo`), otherwise returns a value in `[lo, hi)`. -/
def genRangeExcl (lo hi : ℤ) (r : Rng) : Except GenErr (ℤ × Rng) :=
  if hi ≤ lo then .error .panicked
  else
    let (n, r') := r.next
    .ok (lo + (n : ℤ) % (hi - lo), r')

/-- Model of `rng.gen_range(0.0..1.0f32)`: the uniform continuous draw is
abstracted to a rational in `[0, 1)` derived from one stream element. -/
def genFrac (r : Rng) : ℚ × Rng :=
  let (n, r') := r.next
  (((n % 1000 : ℕ) : ℚ) / 1000, r')

/-- Model of `rng.gen_bool(p)`: one stream element is compared against the
probability. -/
def genBool (p : ℚ) (r : Rng) : Bool × Rng :=
  let (n, r') := r.next
  (decide ((((n % 1000 : ℕ) : ℚ) / 1000) < p), r')

/-- Walk a weight table with a drawn index, as `choose_weighted` does:
returns the first element whose cumulative weight exceeds the index. -/
def pickByWeight {α : Type} : List (α × Nat) → Nat → Option α
  | [], _ => none
  | (a, w) :: rest, n => if n < w then some a else pickByWeight rest (n - w)

/-- Model of `slice.choose_weighted(rng, |(_, w)| w).unwrap()`: panics when
the total weight is zero (or the walk fails), otherwise picks by the drawn
remainder modulo the total weight. -/
def chooseWeighted {α : Type} (l : List (α × Nat)) (r : Rng) : Except GenErr (α × Rng) :=
  let total := (l.map (fun aw => aw.2)).sum
  if total = 0 then .error .panicked
  else
    let (n, r') := r.next
    match pickByWeight l (n % total) with
    | none => .error .panicked
    | some a => .ok (a, r')

/-- Model of `slice.choose(rng).unwrap()` on a nonempty literal slice:
picks by index modulo the length (total, since all call sites are nonempty
literals). -/
def chooseList {α : Type} (l : List α) (d : α) (r : Rng) : α × Rng :=
  let (n, r') := r.next
  (l.getD (n % l.length) d, r')

/-- generate_unique (components.rs lines 1594-1636) rolls from the fixed
hand-authored table of unique items; the "Polaris" unique item. -/
def uniquePolaris : Item where
  name := ["Polaris"]
  appearance := Appearance.new "data/ring_cold.cfg"
  rarity := .Unique
  prefixes := [(.FreezePropagate, 1, 0), (.ChanceToFreeze, 25, 0)]
  suffixes := []

/-- The "Rageheart" unique item (components.rs lines 1608-1617). -/
def uniqueRageheart : Item where
  name := ["Rageheart"]
  appearance := Appearance.new "data/ring_fire.cfg"
  rarity := .Unique
  prefixes := [(.IgnitePropagate, 1, 0), (.ChanceToIgnite, 25, 0)]
  suffixes := []

/-- The "Tesla Coil" unique item (components.rs lines 1618-1627). -/
def uniqueTeslaCoil : Item where
  name := ["Tesla Coil"]
  appearance := Appearance.new "data/ring_lightning.cfg"
  rarity := .Unique
  prefixes := [(.ShockPropagate, 1, 0), (.ChanceToShock, 25, 0)]
  suffixes := []

/-- The "Uncontrollable Hate" unique item (components.rs lines 1628-1634). -/
def uniqueHate : Item where
  name := ["Uncontrollable", "Hate"]
  appearance := Appearance.new "data/ring_explode.cfg"
  rarity := .Unique
  prefixes := [(.ExplodeOnDeath, 1, 0)]
  suffixes := []

/-- generate_unique continued: the selection by `rng.gen_range(0..4)`. -/
def generate_unique (r : Rng) : Except GenErr (Item × Rng) := do
  let (n, r) ← genRangeExcl 0 4 r
  match n with
  | 1 => .ok (uniquePolaris, r)
  | 2 => .ok (uniqueRageheart, r)
  | 3 => .ok (uniqueTeslaCoil, r)
  | _ => .ok (uniqueHate, r)

/-- The red prefix weight table of generate_item (components.rs lines
1667-1682). -/
def red_prefix_weights : List (ItemPrefix × Nat) :=
  [(.Life, 1000), (.LifeRegen, 1000), (.AddedPhysicalDamage, 500),
   (.AddedColdDamage, 50), (.AddedFireDamage, 1000), (.AddedLightningDamage, 50),
   (.CriticalChance, 50), (.ChanceToFreeze, 10), (.ChanceToIgnite, 50),
   (.ChanceToShock, 10), (.Mana, 50), (.ManaRegen, 50), (.AreaOfEffect, 500),
   (.CastSpeed, 50)]

/-- The green prefix weight table of generate_item (components.rs lines
1684-1699). -/
def green_prefix_weights : List (ItemPrefix × Nat) :=
  [(.Life, 50), (.LifeRegen, 50), (.AddedPhysicalDamage, 500),
   (.AddedColdDamage, 50), (.AddedFireDamage, 50), (.AddedLightningDamage, 1000),
   (.CriticalChance, 500), (.ChanceToFreeze, 10), (.ChanceToIgnite, 10),
   (.ChanceToShock, 50), (.Mana, 50), (.ManaRegen, 50), (.AreaOfEffect, 50),
   (.CastSpeed, 500)]

/-- The blue prefix weight table of generate_item (components.rs lines
1701-1716). -/
def blue_prefix_weights : List (ItemPrefix × Nat) :=
  [(.Life, 50), (.LifeRegen, 50), (.AddedPhysicalDamage, 500),
   (.AddedColdDamage, 1000), (.AddedFireDamage, 50), (.AddedLightningDamage, 50),
   (.CriticalChance, 50), (.ChanceToFreeze, 50), (.ChanceToIgnite, 10),
   (.ChanceToShock, 10), (.Mana, 1000), (.ManaRegen, 1000), (.AreaOfEffect, 50),
   (.CastSpeed, 50)]

/-- The red suffix weight table of generate_item (components.rs lines
1718-1732). -/
def red_suffix_weights : List (ItemSuffix × Nat) :=
  [(.Armour, 50), (.PhysicalResistance, 50), (.ColdResistance, 500),
   (.FireResistance, 1000), (.LightningResistance, 500), (.CriticalMultiplier, 100),
   (.IncreasedPhysicalDamage, 500), (.IncreasedColdDamage, 500),
   (.IncreasedFireDamage, 1000), (.IncreasedLightningDamage, 500),
   (.LifeLeech, 200), (.ManaLeech, 50), (.Duration, 50)]

/-- The green suffix weight table of generate_item (components.rs lines
1734-1748). -/
def green_suffix_weights : List (ItemSuffix × Nat) :=
  [(.Armour, 50), (.PhysicalResistance, 50), (.ColdResistance, 500),
   (.FireResistance, 500), (.LightningResistance, 1000), (.CriticalMultiplier, 500),
   (.IncreasedPhysicalDamage, 500), (.IncreasedColdDamage, 500),
   (.IncreasedFireDamage, 500), (.IncreasedLightningDamage, 1000),
   (.LifeLeech, 50), (.ManaLeech, 50), (.Duration, 500)]

/-- The blue suffix weight table of generate_item (components.rs lines
1750-1764). -/
def blue_suffix_weights : List (ItemSuffix × Nat) :=
  [(.Armour, 1500), (.PhysicalResistance, 100), (.ColdResistance, 1000),
   (.FireResistance, 500), (.LightningResistance, 500), (.CriticalMultiplier, 100),
   (.IncreasedPhysicalDamage, 500), (.IncreasedColdDamage, 1000),
   (.IncreasedFireDamage, 500), (.IncreasedLightningDamage, 500),
   (.LifeLeech, 50), (.ManaLeech, 200), (.Duration, 50)]

/-- make_magic_name (components.rs lines 1863-1874). -/
def make_magic_name (kind : ItemKind) (pre : Option (ItemPrefix × ℤ × ℚ))
    (suf : Option (ItemSuffix × ℤ × ℚ)) : List String :=
  let preName := match pre with | some (a, _, _) => a.to_str | none => ""
  let sufName := match suf with | some (a, _, _) => a.to_str | none => ""
  [preName, kind.to_str, sufName]

/-- The flavor noun list of make_rare_name (components.rs lines 1904-1907). -/
def rareNouns : List String :=
  ["Hoop", "Whorl", "Loop", "Curl", "Circle", "Ellipse", "Gape", "Round", "Core",
   "Center", "Border", "Proposal", "Present", "Reward", "Blade", "Spiral", "Point"]

/-- make_rare_name (components.rs lines 1876-1959): rolls a flavor name
from word lists, unrelated to the rolled affixes. -/
def make_rare_name (r : Rng) : List String × Rng :=
  let (preName, r) := chooseList
    ["Empyrean", "Crazed", "Foul", "Colossal", "Thin", "Steel", "Adamantine",
     "Golden", "Shadow", "Night", "Sun", "Indominable", "Keen", "Dark", "Joy",
     "Jolly", "Blade", "", "", "", ""] "" r
  let (b, r) := genBool (3/5) r
  let (noun, r) :=
    if b then chooseList rareNouns "" r
    else
      let (np, r) := chooseList
        ["Rake", "Blade", "Spike", "Hate", "Love", "Green", "Blue", "Red",
         "Violet", "Alabaster"] "" r
      let (nn, r) := chooseList rareNouns "" r
      (np ++ nn, r)
  let (b2, r) := genBool (7/10) r
  let (sufName, r) :=
    if b2 then
      chooseList
        ["of the Stars", "of the Night", "of Death", "of Life", "of Presents",
         "of Beauty", "of Hate", "of Lust", "of Filth", "of Sloth", "of Blades",
         "", "", "", ""] "" r
    else
      let (nn, r) := chooseList rareNouns "" r
      ("the " ++ nn, r)
  ([preName, noun, sufName], r)

/-- The `loop` in generate_item that re-rolls `(num_prefixes, num_suffixes)`
until their sum reaches `min_affixes` (components.rs lines 1784-1794),
with fuel for the unbounded retry. -/
def rollCounts (fuel : Nat) (num_affixes min_affixes : ℤ) (r : Rng) :
    Except GenErr ((ℤ × ℤ) × Rng) :=
  match fuel with
  | 0 => .error .fuelOut
  | fuel + 1 => do
    let (np, r) ← genRangeIncl 0 num_affixes r
    let (ns, r) ← genRangeIncl 0 num_affixes r
    if min_affixes ≤ np + ns then .ok ((np, ns), r)
    else rollCounts fuel num_affixes min_affixes r

/-- The inner `loop` of the affix roll (components.rs lines 1798-1810):
weighted-sample a kind, reject duplicates against the accumulated list,
then roll its tier in `[level/2, level]` and its fraction. -/
def rollAffix {κ : Type} [DecidableEq κ] (fuel : Nat) (weights : List (κ × Nat))
    (acc : List (κ × ℤ × ℚ)) (level : ℤ) (r : Rng) :
    Except GenErr ((κ × ℤ × ℚ) × Rng) :=
  match fuel with
  | 0 => .error .fuelOut
  | fuel + 1 => do
    let (k, r) ← chooseWeighted weights r
    match acc.find? (fun p => p.1 = k) with
    | some _ => rollAffix fuel weights acc level r
    | none =>
      let (tier, r) ← genRangeIncl (Int.tdiv level 2) level r
      let (frac, r) := genFrac r
      .ok ((k, tier, frac), r)

/-- The outer `for _ in 0..num` affix loop of generate_item (components.rs
lines 1795-1829): roll `n` affixes, accumulating without duplicates. -/
def rollAffixes {κ : Type} [DecidableEq κ] (fuel : Nat) (weights : List (κ × Nat))
    (level : ℤ) : Nat → List (κ × ℤ × ℚ) → Rng →
    Except GenErr (List (κ × ℤ × ℚ) × Rng)
  | 0, acc, r => .ok (acc, r)
  | n + 1, acc, r => do
    let (a, r) ← rollAffix fuel weights acc level r
    rollAffixes fuel weights level n (acc ++ [a]) r

/-- The `rarity_weights` match at the top of generate_item (components.rs
lines 1640-1651): defined for crystal levels 0-7, `unreachable!()`
otherwise. -/
def rarityWeightsFor (crystal_level : ℤ) : Except GenErr (Nat × Nat × Nat) :=
  match crystal_level with
  | 0 => .ok (50, 5, 1)
  | 1 => .ok (40, 5, 1)
  | 2 => .ok (30, 5, 1)
  | 3 => .ok (20, 50, 2)
  | 4 => .ok (100, 50, 5)
  | 5 => .ok (100, 50, 7)
  | 6 => .ok (100, 50, 8)
  | 7 => .ok (100, 50, 9)
  | _ => .error .panicked

/-- The prefix-weight-table selection
`[red, green, blue][kind as usize]` of generate_item (components.rs lines
1766-1770). -/
def prefixWeightsFor (kind : ItemKind) : List (ItemPrefix × Nat) :=
  match kind with
  | .Red => red_prefix_weights
  | .Green => green_prefix_weights
  | .Blue => blue_prefix_weights

/-- The suffix-weight-table selection of generate_item (components.rs
lines 1771-1775). -/
def suffixWeightsFor (kind : ItemKind) : List (ItemSuffix × Nat) :=
  match kind with
  | .Red => red_suffix_weights
  | .Green => green_suffix_weights
  | .Blue => blue_suffix_weights

/-- The `(num_affixes, min_affixes)` match of generate_item (components.rs
lines 1777-1782): 1 for Magic, 3 for Rare, `unreachable!()` otherwise. -/
def affixCountsFor (rarity : Rarity) : Except GenErr (ℤ × ℤ) :=
  match rarity with
  | .Magic => .ok (1, 1)
  | .Rare => .ok (3, 3)
  | _ => .error .panicked

/-- generate_item (components.rs lines 1638-1861). `fuel` bounds the
source's unbounded probabilistic retry loops; every other failure mode is a
panic (`GenErr.panicked`), notably the `_ => unreachable!()` arm of the
`crystal_level` rarity-weight match. -/
def generate_item (kind : ItemKind) (crystal_level level : ℤ) (fuel : Nat) (r : Rng) :
    Except GenErr Item := do
  let rarity_weights : Nat × Nat × Nat ← rarityWeightsFor crystal_level
  let (rarity, r) ← chooseWeighted
    [(Rarity.Magic, rarity_weights.1), (Rarity.Rare, rarity_weights.2.1),
     (Rarity.Unique, rarity_weights.2.2)] r
  if rarity = Rarity.Unique then
    let (item, _) ← generate_unique r
    .ok item
  else do
    let prefix_weights := prefixWeightsFor kind
    let suffix_weights := suffixWeightsFor kind
    let counts : ℤ × ℤ ← affixCountsFor rarity
    let (nums, r) ← rollCounts fuel counts.1 counts.2 r
    let (prefixes, r) ← rollAffixes fuel prefix_weights level nums.1.toNat [] r
    let (suffixes, r) ← rollAffixes fuel suffix_weights level nums.2.toNat [] r
    let (name, _r) ←
      match rarity with
      | .Magic => .ok (make_magic_name kind prefixes.head? suffixes.head?, r)
      | .Rare => .ok (make_rare_name r)
      | _ => (.error .panicked : Except GenErr (List String × Rng))
    let prefixes := prefixes.insertionSort (fun a b => a.1.idx ≤ b.1.idx)
    let suffixes := suffixes.insertionSort (fun a b => a.1.idx ≤ b.1.idx)
    let appearance :=
      match kind with
      | .Red => "data/ring_red.cfg"
      | .Green => "data/ring_yellow.cfg"
      | .Blue => "data/ring_blue.cfg"
    .ok
      { name := name
        rarity := rarity
        appearance := Appearance.new appearance
        prefixes := prefixes
        suffixes := suffixes }

/-- Checker for claim C9: whenever the generator returns an item, both its
prefix kinds and its suffix kinds are pairwise distinct. Errors vacuously
pass. -/
def distinctAffixKinds (e : Except GenErr Item) : Bool :=
  match e with
  | .error _ => true
  | .ok item =>
    decide (item.prefixes.map (fun p => p.1)).Nodup
      && decide (item.suffixes.map (fun s => s.1)).Nodup

/-- A queued effect of the deferred pipeline (game.rs, `Map::logic`
resolution phase), reduced to its structural action on the world: `die`
models `Effect::Die` (pushes a `to_die` entry); `spawnReq` models every
`Spawn*`/damage effect whose world mutation is the enqueueing of a spawn
closure. Per-effect payloads (positions, stats) do not affect the phase
ordering and despawn bookkeeping that claim C7 is about. -/
inductive DeferredEffect where
  | die
  | spawnReq
deriving DecidableEq, Repr

/-- The world state threaded through the resolution phase: the ids of live
entities, the next fresh id handed out by spawns (hecs allocates fresh
handles), and a log of every despawn performed. -/
structure ResolveState where
  live : List Nat
  nextId : Nat
  despawnLog : List Nat
deriving DecidableEq, Repr

/-- The `for (id, other_id, effects) in effects` interpretation loop
(game.rs lines 3705-4038): `Effect::Die` appends `(false, id)` to `to_die`;
spawn-like effects enqueue one spawn closure. Returns the grown `to_die`
list and the number of queued spawn closures. -/
def interpretEffects (effects : List (Nat × List DeferredEffect))
    (to_die : List (Bool × Nat)) : List (Bool × Nat) × Nat :=
  effects.foldl
    (fun acc e =>
      e.2.foldl
        (fun acc eff =>
          match eff with
          | .die => (acc.1 ++ [(false, e.1)], acc.2)
          | .spawnReq => (acc.1, acc.2 + 1))
        acc)
    (to_die, 0)

/-- The `for spawn_fn in spawn_fns` loop (game.rs lines 4040-4043): each
queued spawn closure adds one fresh entity to the world. -/
def runSpawns (w : ResolveState) (n : Nat) : ResolveState :=
  { w with live := w.live ++ (List.range n).map (fun i => w.nextId + i)
           nextId := w.nextId + n }

/-- One `self.world.despawn(id)?` (game.rs line 4059): fails with hecs's
NoSuchEntity error when the id is not live. -/
def despawnOne (w : ResolveState) (id : Nat) : Except String ResolveState :=
  if id ∈ w.live then
    .ok { w with live := w.live.erase id, despawnLog := w.despawnLog ++ [id] }
  else .error "NoSuchEntity"

/-- The `for (_, id) in to_die` despawn loop (game.rs lines 4056-4060),
with `?` propagating the first failure. -/
def despawnAll (w : ResolveState) : List (Bool × Nat) → Except String ResolveState
  | [] => .ok w
  | e :: rest =>
    match despawnOne w e.2 with
    | .error s => .error s
    | .ok w' => despawnAll w' rest

/-- Rust's `Vec::dedup_by_key` keyed on the entity id (game.rs line 4055):
drops every consecutive entry whose key equals its predecessor's, keeping
the first of each run. -/
def dedupByKey : List (Bool × Nat) → List (Bool × Nat)
  | [] => []
  | [a] => [a]
  | a :: b :: rest =>
    if a.2 = b.2 then dedupByKey (a :: rest) else a :: dedupByKey (b :: rest)
termination_by l => l.length

/-- The tail of `Map::logic` (game.rs lines 3696-4060): append on-death
effect lists of death-triggering `to_die` entries, interpret all queued
effects, execute all queued spawn closures, then sort `to_die` by entity
id, dedup it, and despawn every listed entity. -/
def resolveDeferred (w : ResolveState) (onDeath : Nat → List DeferredEffect)
    (effects0 : List (Nat × List DeferredEffect)) (to_die0 : List (Bool × Nat)) :
    Except String ResolveState :=
  let effects := effects0 ++ (to_die0.filter (fun p => p.1)).map (fun p => (p.2, onDeath p.2))
  let step := interpretEffects effects to_die0
  let w := runSpawns w step.2
  let to_die := dedupByKey (step.1.insertionSort (fun a b => a.2 ≤ b.2))
  despawnAll w to_die

/-- The multiset of entity ids queued to die during a tick's resolution
(original `to_die` entries plus those added by interpreted `Die` effects),
with duplicates. -/
def queuedDeathIds (onDeath : Nat → List DeferredEffect)
    (effects0 : List (Nat × List DeferredEffect)) (to_die0 : List (Bool × Nat)) :
    List Nat :=
  let effects := effects0 ++ (to_die0.filter (fun p => p.1)).map (fun p => (p.2, onDeath p.2))
  ((interpretEffects effects to_die0).1).map (fun p => p.2)

/-- The number of spawn closures queued during a tick's resolution. -/
def spawnCount (onDeath : Nat → List DeferredEffect)
    (effects0 : List (Nat × List DeferredEffect)) (to_die0 : List (Bool × Nat)) : Nat :=
  let effects := effects0 ++ (to_die0.filter (fun p => p.1)).map (fun p => (p.2, onDeath p.2))
  (interpretEffects effects to_die0).2

/-- The spec's reference formula for an affix magnitude:
`ceil((delta*tier + fraction*delta)/mult)*mult`. -/
def ceilMul (delta mult : ℚ) (tier : ℤ) (frac : ℚ) : ℚ :=
  ((⌈(delta * (tier : ℚ) + frac * delta) / mult⌉ : ℤ) : ℚ) * mult

/-- An all-ones RNG stream, used to exercise the generator on a concrete
input. -/
def rngOne : Rng := { stream := fun _ => 1, cursor := 0 }

/-- Base stats whose critical chance exceeds the documented 1.0 bound. -/
def baseCrit2 : StatValues := { StatValues.default with critical_chance := 2 }

/-- Base stats with 100 max life, used by the inventory-slot examples. -/
def baseLife100 : StatValues := { StatValues.default with max_life := 100 }

/-- A concrete ring holding a single Life prefix worth a flat +20 max life
(`get_value .Life 1 0 = 20`). -/
def lifeRing : Item where
  name := ["r"]
  appearance := Appearance.new "data/ring_red.cfg"
  rarity := .Magic
  prefixes := [(.Life, 1, 0)]
  suffixes := []

/-- A nine-slot inventory whose only item sits in the seventh slot
(index 6). -/
def invSeventh : Inventory :=
  { slots := [none, none, none, none, none, none, some lifeRing, none, none] }

/-- A nine-slot inventory whose only item sits in the first slot. -/
def invFirst : Inventory :=
  { slots := [some lifeRing, none, none, none, none, none, none, none, none] }

/-- A cold attacker snapshot: 1 cold damage, crit multiplier 1, skill
duration 1, freeze chance 0. -/
def attackerCold : StatValues :=
  { StatValues.default with
    cold_damage := 1, skill_duration := 1, critical_multiplier := 1 }

/-- A fresh defender with 1000 max life: a critical cold hit computes a
freeze duration of only 1/100 s against it. -/
def defenderBig : Stats := Stats.new { StatValues.default with max_life := 1000 }

/-- A defender with 1 max life that is frozen until time 100: a critical
cold hit at time 0 computes a 10 s freeze against it. -/
def defenderFrozen : Stats :=
  { Stats.new { StatValues.default with max_life := 1 } with freeze_time := 100 }

/-- A cold attacker that also carries the freeze-propagate flag. -/
def attackerColdProp : StatValues := { attackerCold with freeze_propagate := true }

/-- A concrete world for the deferred-pipeline example: three live
entities, fresh ids from 10. -/
def worldC7 : ResolveState := { live := [3, 1, 2], nextId := 10, despawnLog := [] }

/-- A concrete effects queue for the deferred-pipeline example. -/
def effectsC7 : List (Nat × List DeferredEffect) := [(1, [.die])]

/-- A concrete to_die queue with entity 2 listed twice, once
death-triggering. -/
def toDieC7 : List (Bool × Nat) := [(true, 2), (false, 2), (false, 3)]

/-- A concrete on-death component table: every entity's death queues one
spawn closure. -/
def onDeathC7 : Nat → List DeferredEffect := fun _ => [.spawnReq]

/-- The roll oracle of a critical hit whose three status-chance rolls all
fail (as they would with chance 0). -/
def rollsCrit : Rolls := { crit := true, freeze := false, ignite := false, shock := false }

/-- Totality of the entity-id key order used to sort `to_die`. -/
instance : IsTotal (Bool × Nat) (fun a b => a.2 ≤ b.2) := ⟨fun a b => Nat.le_total a.2 b.2⟩

/-- Transitivity of the entity-id key order used to sort `to_die`. -/
instance : IsTrans (Bool × Nat) (fun a b => a.2 ≤ b.2) := ⟨fun _ _ _ h h2 => Nat.le_trans h h2⟩

end BladeBlade

namespace BladeBlade

/-- C10: the collision-kind compatibility relation is exactly symmetric:
for every pair of collision kinds A and B, `A.collides_with B` equals
`B.collides_with A`. -/
theorem collides_with_symm (a b : CollisionKind) :
    a.collides_with b = b.collides_with a := by
  cases a <;> cases b <;> rfl

end BladeBlade

namespace BladeBlade

theorem umin_le_left (a b : ℚ) : umin a b ≤ a := min_le_left a b

theorem le_uclamp (x lo hi : ℚ) : lo ≤ uclamp x lo hi := le_max_left _ _

theorem uclamp_le (x lo hi : ℚ) (h : lo ≤ hi) : uclamp x lo hi ≤ hi :=
  max_le h (min_le_left _ _)

theorem prefix_deltaMult_pos (p : ItemPrefix) :
    0 ≤ p.deltaMult.1 ∧ 0 < p.deltaMult.2 := by
  cases p <;> exact ⟨by norm_num [ItemPrefix.deltaMult], by norm_num [ItemPrefix.deltaMult]⟩

theorem suffix_deltaMult_pos (s : ItemSuffix) :
    0 ≤ s.deltaMult.1 ∧ 0 < s.deltaMult.2 := by
  cases s <;> exact ⟨by norm_num [ItemSuffix.deltaMult], by norm_num [ItemSuffix.deltaMult]⟩

theorem prefix_get_value_eq_ceilMul (p : ItemPrefix) (t : ℤ) (f : ℚ) :
    p.get_value t f = ceilMul p.deltaMult.1 p.deltaMult.2 t f := by
  have h : p.deltaMult.1 * (t : ℚ) + f * (p.deltaMult.1 * ((t : ℚ) + 1) - p.deltaMult.1 * (t : ℚ))
      = p.deltaMult.1 * (t : ℚ) + f * p.deltaMult.1 := by ring
  simp only [ItemPrefix.get_value, ceilMul, h]

theorem suffix_get_value_eq_ceilMul (s : ItemSuffix) (t : ℤ) (f : ℚ) :
    s.get_value t f = ceilMul s.deltaMult.1 s.deltaMult.2 t f := by
  have h : s.deltaMult.1 * (t : ℚ) + f * (s.deltaMult.1 * ((t : ℚ) + 1) - s.deltaMult.1 * (t : ℚ))
      = s.deltaMult.1 * (t : ℚ) + f * s.deltaMult.1 := by ring
  simp only [ItemSuffix.get_value, ceilMul, h]

theorem ceilMul_rounds_up (delta mult : ℚ) (t : ℤ) (f : ℚ) (hm : 0 < mult) :
    delta * (t : ℚ) + f * delta ≤ ceilMul delta mult t f := by
  unfold ceilMul
  have h1 : (delta * (t : ℚ) + f * delta) / mult
      ≤ ((⌈(delta * (t : ℚ) + f * delta) / mult⌉ : ℤ) : ℚ) := Int.le_ceil _
  calc delta * (t : ℚ) + f * delta
      = ((delta * (t : ℚ) + f * delta) / mult) * mult := by field_simp
    _ ≤ ((⌈(delta * (t : ℚ) + f * delta) / mult⌉ : ℤ) : ℚ) * mult :=
        mul_le_mul_of_nonneg_right h1 hm.le

theorem ceilMul_mono (delta mult : ℚ) (t t' : ℤ) (f f' : ℚ) (hd : 0 ≤ delta)
    (hm : 0 < mult) (ht : t ≤ t') (hf : f ≤ f') :
    ceilMul delta mult t f ≤ ceilMul delta mult t' f' := by
  unfold ceilMul
  have harg : delta * (t : ℚ) + f * delta ≤ delta * (t' : ℚ) + f' * delta := by
    have h1 : delta * (t : ℚ) ≤ delta * (t' : ℚ) := by
      apply mul_le_mul_of_nonneg_left _ hd
      exact_mod_cast ht
    have h2 : f * delta ≤ f' * delta := mul_le_mul_of_nonneg_right hf hd
    linarith
  have hc := Int.ceil_mono ((div_le_div_iff_of_pos_right hm).mpr harg)
  exact mul_le_mul_of_nonneg_right (by exact_mod_cast hc) hm.le

theorem ceilMul_frac_zero (delta mult : ℚ) (t : ℤ) :
    ceilMul delta mult t 0 = ((⌈delta * (t : ℚ) / mult⌉ : ℤ) : ℚ) * mult := by
  unfold ceilMul
  norm_num

/-- C8: for every affix kind with its (delta, mult) pair, `get_value(tier,
fraction)` equals `ceil((delta*tier + fraction*delta)/mult)*mult`; it
rounds up (the raw interpolated value never exceeds it), at fraction 0 it
equals delta*tier rounded up to the granularity, and it is monotonically
non-decreasing in both tier and fraction. Stated for both prefix and
suffix affixes. -/
theorem get_value_formula_monotone (p : ItemPrefix) (s : ItemSuffix) (t t' : ℤ) (f f' : ℚ) :
    (p.get_value t f = ceilMul p.deltaMult.1 p.deltaMult.2 t f
      ∧ p.deltaMult.1 * (t : ℚ) + f * p.deltaMult.1 ≤ p.get_value t f
      ∧ p.get_value t 0 = ((⌈p.deltaMult.1 * (t : ℚ) / p.deltaMult.2⌉ : ℤ) : ℚ) * p.deltaMult.2
      ∧ (t ≤ t' → f ≤ f' → p.get_value t f ≤ p.get_value t' f'))
    ∧ (s.get_value t f = ceilMul s.deltaMult.1 s.deltaMult.2 t f
      ∧ s.deltaMult.1 * (t : ℚ) + f * s.deltaMult.1 ≤ s.get_value t f
      ∧ s.get_value t 0 = ((⌈s.deltaMult.1 * (t : ℚ) / s.deltaMult.2⌉ : ℤ) : ℚ) * s.deltaMult.2
      ∧ (t ≤ t' → f ≤ f' → s.get_value t f ≤ s.get_value t' f')) := by
  obtain ⟨hpd, hpm⟩ := prefix_deltaMult_pos p
  obtain ⟨hsd, hsm⟩ := suffix_deltaMult_pos s
  refine ⟨⟨prefix_get_value_eq_ceilMul p t f, ?_, ?_, ?_⟩, ⟨suffix_get_value_eq_ceilMul s t f, ?_, ?_, ?_⟩⟩
  · rw [prefix_get_value_eq_ceilMul]
    exact ceilMul_rounds_up _ _ _ _ hpm
  · rw [prefix_get_value_eq_ceilMul]
    exact ceilMul_frac_zero _ _ _
  · intro ht hf
    rw [prefix_get_value_eq_ceilMul, prefix_get_value_eq_ceilMul]
    exact ceilMul_mono _ _ _ _ _ _ hpd hpm ht hf
  · rw [suffix_get_value_eq_ceilMul]
    exact ceilMul_rounds_up _ _ _ _ hsm
  · rw [suffix_get_value_eq_ceilMul]
    exact ceilMul_frac_zero _ _ _
  · intro ht hf
    rw [suffix_get_value_eq_ceilMul, suffix_get_value_eq_ceilMul]
    exact ceilMul_mono _ _ _ _ _ _ hsd hsm ht hf

/-- Witness for C8: the monotonicity conjuncts applied at the Life prefix
and Armour suffix with tier 1 ≤ 2 and fraction 0 ≤ 1/2. -/
theorem get_value_formula_monotone_witness :
    ItemPrefix.Life.get_value 1 0 ≤ ItemPrefix.Life.get_value 2 (1/2)
    ∧ ItemSuffix.Armour.get_value 1 0 ≤ ItemSuffix.Armour.get_value 2 (1/2) :=
  ⟨(get_value_formula_monotone .Life .Armour 1 2 0 (1/2)).1.2.2.2 (by norm_num) (by norm_num),
   (get_value_formula_monotone .Life .Armour 1 2 0 (1/2)).2.2.2.2 (by norm_num) (by norm_num)⟩

end BladeBlade

namespace BladeBlade

/-- Counterexample for C3: with no inventory equipped, Stats::reset skips
the clamping block entirely, so a base critical chance of 2.0 survives the
recompute unclamped (the claim asserts crit ≤ 1.0 in the no-inventory case
as well). -/
theorem reset_no_inventory_unclamped :
    1 < ((Stats.new baseCrit2).reset 0 0 none).values.critical_chance := by
  decide

theorem resetPost_clamp_fields (time : ℚ) (s : Stats) :
    (resetPost time s).values.critical_chance = s.values.critical_chance
    ∧ (resetPost time s).values.physical_resistance = s.values.physical_resistance
    ∧ (resetPost time s).values.cold_resistance = s.values.cold_resistance
    ∧ (resetPost time s).values.fire_resistance = s.values.fire_resistance
    ∧ (resetPost time s).values.lightning_resistance = s.values.lightning_resistance
    ∧ (resetPost time s).values.chance_to_shock = s.values.chance_to_shock
    ∧ (resetPost time s).values.chance_to_ignite = s.values.chance_to_ignite
    ∧ (resetPost time s).values.chance_to_freeze = s.values.chance_to_freeze := by
  simp only [resetPost]
  split <;> split <;> split <;> simp

theorem reset_some_eq (s : Stats) (time : ℚ) (pen : ℤ) (inv : Inventory) :
    s.reset time pen (some inv)
      = resetPost time (resetApplyInventory { s with values := s.base_values }
          (((pen.tdiv 5 : ℤ) : ℚ)) inv) := rfl

theorem resetApplyInventory_values (self : Stats) (p : ℚ) (inv : Inventory) :
    (resetApplyInventory self p inv).values
      = resetInventoryValues self.base_values self.values p
          (slotFold (inv.slots.take 6)).1 (slotFold (inv.slots.take 6)).2 := rfl

theorem resetInventoryValues_clamps (bv v0 : StatValues) (p : ℚ) (adds increases : StatValues) :
    (resetInventoryValues bv v0 p adds increases).critical_chance
        = umin 1 ((bv.critical_chance + adds.critical_chance) * (1 + increases.critical_chance))
    ∧ (resetInventoryValues bv v0 p adds increases).physical_resistance
        = umin (9/10) ((bv.physical_resistance + adds.physical_resistance)
            * (1 + increases.physical_resistance))
    ∧ (resetInventoryValues bv v0 p adds increases).cold_resistance
        = uclamp ((bv.cold_resistance + adds.cold_resistance) * (1 + increases.cold_resistance)
            - p * (3/10)) (-1) (3/4)
    ∧ (resetInventoryValues bv v0 p adds increases).fire_resistance
        = uclamp ((bv.fire_resistance + adds.fire_resistance) * (1 + increases.fire_resistance)
            - p * (3/10)) (-1) (3/4)
    ∧ (resetInventoryValues bv v0 p adds increases).lightning_resistance
        = uclamp ((bv.lightning_resistance + adds.lightning_resistance)
            * (1 + increases.lightning_resistance) - p * (3/10)) (-1) (3/4)
    ∧ (resetInventoryValues bv v0 p adds increases).chance_to_shock
        = umin 1 ((bv.chance_to_shock + adds.chance_to_shock) * (1 + increases.chance_to_shock))
    ∧ (resetInventoryValues bv v0 p adds increases).chance_to_ignite
        = umin 1 ((bv.chance_to_ignite + adds.chance_to_ignite) * (1 + increases.chance_to_ignite))
    ∧ (resetInventoryValues bv v0 p adds increases).chance_to_freeze
        = umin 1 ((bv.chance_to_freeze + adds.chance_to_freeze) * (1 + increases.chance_to_freeze)) :=
  ⟨rfl, rfl, rfl, rfl, rfl, rfl, rfl, rfl⟩

/-- C3 (amended): after a recompute with an inventory present, the
documented clamps all hold, for every base-stat record, simulation time,
penalty level, and inventory: crit chance ≤ 1, physical resistance ≤ 0.9,
each elemental resistance in [−1, 0.75] after the altitude penalty, each
elemental proc chance ≤ 1. (The claim fails only in the no-inventory case,
where the clamping block is skipped.) -/
theorem reset_with_inventory_clamped (s : Stats) (time : ℚ) (pen : ℤ) (inv : Inventory) :
    ((s.reset time pen (some inv)).values.critical_chance ≤ 1)
    ∧ ((s.reset time pen (some inv)).values.physical_resistance ≤ 9/10)
    ∧ (-1 ≤ (s.reset time pen (some inv)).values.cold_resistance)
    ∧ ((s.reset time pen (some inv)).values.cold_resistance ≤ 3/4)
    ∧ (-1 ≤ (s.reset time pen (some inv)).values.fire_resistance)
    ∧ ((s.reset time pen (some inv)).values.fire_resistance ≤ 3/4)
    ∧ (-1 ≤ (s.reset time pen (some inv)).values.lightning_resistance)
    ∧ ((s.reset time pen (some inv)).values.lightning_resistance ≤ 3/4)
    ∧ ((s.reset time pen (some inv)).values.chance_to_shock ≤ 1)
    ∧ ((s.reset time pen (some inv)).values.chance_to_ignite ≤ 1)
    ∧ ((s.reset time pen (some inv)).values.chance_to_freeze ≤ 1) := by
  have hlohi : (-1 : ℚ) ≤ 3/4 := by norm_num
  rw [reset_some_eq]
  obtain ⟨h1, h2, h3, h4, h5, h6, h7, h8⟩ := resetPost_clamp_fields time
    (resetApplyInventory { s with values := s.base_values } (((pen.tdiv 5 : ℤ) : ℚ)) inv)
  rw [h1, h2, h3, h4, h5, h6, h7, h8, resetApplyInventory_values]
  obtain ⟨g1, g2, g3, g4, g5, g6, g7, g8⟩ := resetInventoryValues_clamps
    ({ s with values := s.base_values } : Stats).base_values
    ({ s with values := s.base_values } : Stats).values (((pen.tdiv 5 : ℤ) : ℚ))
    (slotFold (inv.slots.take 6)).1 (slotFold (inv.slots.take 6)).2
  rw [g1, g2, g3, g4, g5, g6, g7, g8]
  exact ⟨umin_le_left _ _, umin_le_left _ _,
    le_uclamp _ _ _, uclamp_le _ _ _ hlohi,
    le_uclamp _ _ _, uclamp_le _ _ _ hlohi,
    le_uclamp _ _ _, uclamp_le _ _ _ hlohi,
    umin_le_left _ _, umin_le_left _ _, umin_le_left _ _⟩
end BladeBlade

namespace BladeBlade

/-- Counterexample for C2: an item in the seventh slot (index 6) of the
nine-slot inventory is skipped by the recompute: its flat +20 max life is
not applied (effective max life stays 100), while the same item in the
first slot yields 120. -/
theorem reset_skips_seventh_slot :
    ((Stats.new baseLife100).reset 0 0 (some invSeventh)).values.max_life = 100
    ∧ ((Stats.new baseLife100).reset 0 0 (some invFirst)).values.max_life = 120 := by
  constructor <;>
  · rw [reset_some_eq]
    norm_num [resetPost, resetApplyInventory, resetInventoryValues, slotFold, slotStep,
      applyItemAffixes, ItemPrefix.apply, ItemPrefix.get_value, ItemPrefix.deltaMult,
      invSeventh, invFirst, lifeRing, baseLife100, Stats.new, StatValues.default,
      EffectAndDuration.new, umin]

theorem resetApplyInventory_congr (self : Stats) (p : ℚ) {inv inv' : Inventory}
    (h : slotFold (inv.slots.take 6) = slotFold (inv'.slots.take 6)) :
    resetApplyInventory self p inv = resetApplyInventory self p inv' := by
  unfold resetApplyInventory
  rw [h]

theorem foldl_slotStep_filterMap (l : List (Option Item)) :
    ∀ ai, List.foldl slotStep ai ((l.filterMap id).map some) = List.foldl slotStep ai l := by
  induction l with
  | nil => intro ai; rfl
  | cons hd tl ih =>
    intro ai
    cases hd with
    | none => simp only [List.filterMap_cons, id, List.foldl_cons, slotStep]; exact ih ai
    | some it => simpa [List.filterMap_cons, slotStep] using ih (applyItemAffixes it ai)

theorem slotFold_filterMap (l : List (Option Item)) :
    slotFold ((l.filterMap id).map some) = slotFold l :=
  foldl_slotStep_filterMap l _

/-- C2 (amended): the stat recompute reads only the first six inventory
slots — it is invariant under truncating the slot array to its first six
entries, and under dropping the empty slots among those six; every
occupied slot among the first six contributes its affixes, while slots
seven to nine are ignored. -/
theorem reset_uses_first_six_slots (s : Stats) (time : ℚ) (pen : ℤ) (inv : Inventory) :
    s.reset time pen (some inv) = s.reset time pen (some ⟨inv.slots.take 6⟩)
    ∧ s.reset time pen (some inv)
      = s.reset time pen (some ⟨((inv.slots.take 6).filterMap id).map some⟩) := by
  constructor
  · rw [reset_some_eq, reset_some_eq]
    refine congrArg (resetPost time) (resetApplyInventory_congr _ _ ?_)
    have h : (Inventory.mk (inv.slots.take 6)).slots.take 6 = inv.slots.take 6 := by
      simp [List.take_take]
    rw [h]
  · rw [reset_some_eq, reset_some_eq]
    refine congrArg (resetPost time) (resetApplyInventory_congr _ _ ?_)
    have hlen : ((((inv.slots.take 6).filterMap id).map some)).length ≤ 6 := by
      rw [List.length_map]
      exact le_trans (List.length_filterMap_le _ _)
        (by simp [List.length_take])
    have htake : (Inventory.mk (((inv.slots.take 6).filterMap id).map some)).slots.take 6
        = ((inv.slots.take 6).filterMap id).map some := List.take_of_length_le hlen
    rw [htake, slotFold_filterMap]

end BladeBlade

namespace BladeBlade

theorem applyDamage_dead (self : Stats) (values : StatValues) (time : ℚ) (r : Rolls)
    (h : (self.dead || self.values.is_invincible) = true) :
    Stats.apply_damage self values time r = (self, DamageOutcome.zero) := by
  simp [Stats.apply_damage, h]

theorem applyDamage_freeze_time (self : Stats) (values : StatValues) (time : ℚ) (r : Rolls)
    (h : (self.dead || self.values.is_invincible) = false) :
    (Stats.apply_damage self values time r).1.freeze_time
      = if 1/10 < freezeDurationOf self values r then time + freezeDurationOf self values r
        else self.freeze_time := by
  simp only [Stats.apply_damage, h, Bool.false_eq_true, if_false]
  repeat' split
  all_goals simp_all

theorem applyDamage_ignite_instances (self : Stats) (values : StatValues) (time : ℚ) (r : Rolls)
    (h : (self.dead || self.values.is_invincible) = false) :
    (Stats.apply_damage self values time r).1.ignite_instances
      = self.ignite_instances
        ++ (if (igniteOf self values r).active then
              [{ rate := (igniteOf self values r).effect,
                 time_to_remove := time + (igniteOf self values r).duration }]
            else []) := by
  simp only [Stats.apply_damage, h, Bool.false_eq_true, if_false]
  repeat' split
  all_goals simp_all

theorem applyDamage_shock_instances (self : Stats) (values : StatValues) (time : ℚ) (r : Rolls)
    (h : (self.dead || self.values.is_invincible) = false) :
    (Stats.apply_damage self values time r).1.shock_instances
      = self.shock_instances
        ++ (if (shockOf self values r).active then
              [{ rate := (shockOf self values r).effect,
                 time_to_remove := time + (shockOf self values r).duration }]
            else []) := by
  simp only [Stats.apply_damage, h, Bool.false_eq_true, if_false]
  repeat' split
  all_goals simp_all

theorem applyDamage_freeze_propagation (self : Stats) (values : StatValues) (time : ℚ) (r : Rolls)
    (h : (self.dead || self.values.is_invincible) = false) :
    (Stats.apply_damage self values time r).2.freeze_propagation
      = if values.freeze_propagate && !(decide (time < self.freeze_time)) then
          freezeDurationOf self values r
        else 0 := by
  simp only [Stats.apply_damage, h, Bool.false_eq_true, if_false]
  repeat' split
  all_goals simp_all

theorem applyDamage_ignite_propagation (self : Stats) (values : StatValues) (time : ℚ) (r : Rolls)
    (h : (self.dead || self.values.is_invincible) = false) :
    (Stats.apply_damage self values time r).2.ignite_propagation
      = if values.ignite_propagate && self.ignite_instances.isEmpty then
          igniteOf self values r
        else EffectAndDuration.new := by
  simp only [Stats.apply_damage, h, Bool.false_eq_true, if_false]
  repeat' split
  all_goals simp_all

theorem applyDamage_shock_propagation (self : Stats) (values : StatValues) (time : ℚ) (r : Rolls)
    (h : (self.dead || self.values.is_invincible) = false) :
    (Stats.apply_damage self values time r).2.shock_propagation
      = if values.shock_propagate && self.shock_instances.isEmpty then
          shockOf self values r
        else EffectAndDuration.new := by
  simp only [Stats.apply_damage, h, Bool.false_eq_true, if_false]
  repeat' split
  all_goals simp_all

end BladeBlade

namespace BladeBlade

/-- Counterexample for C4: a critical hit with positive cold damage (1)
and freeze chance 0 against a 1000-max-life defender computes a freeze
duration of 1/100 s, below the 0.1 s threshold, so the defender's freeze
expiry stays 0 — the status is not applied even though the crit succeeded
and cold damage is positive. -/
theorem crit_small_freeze_not_applied :
    0 < attackerCold.cold_damage
    ∧ attackerCold.chance_to_freeze = 0
    ∧ (defenderBig.apply_damage attackerCold 0 rollsCrit).1.freeze_time = 0 := by
  refine ⟨by norm_num [attackerCold, StatValues.default],
    by norm_num [attackerCold, StatValues.default], ?_⟩
  rw [applyDamage_freeze_time defenderBig attackerCold 0 rollsCrit rfl]
  rw [if_neg]
  · rfl
  · norm_num [freezeDurationOf, damageMultOf, critAndMult, shockEffectOf, maxRate,
      rollsCrit, attackerCold, defenderBig, Stats.new, StatValues.default]

/-- C4 (amended): a critical hit bypasses the status-chance rolls
entirely: the outcome does not depend on the nominal chance values
(which enter only through the rolls), and equals the outcome of a hit in
which every status roll succeeds. The computed status is then recorded on
the defender only if it passes the activity threshold (freeze duration >
0.1 s; ignite/shock effect and duration positive), as the counterexample
shows. -/
theorem crit_bypasses_status_rolls (self : Stats) (values : StatValues) (time : ℚ)
    (r : Rolls) (h : r.crit = true) :
    (∀ a b c : ℚ, Stats.apply_damage self
        { values with chance_to_freeze := a, chance_to_ignite := b, chance_to_shock := c }
        time r = Stats.apply_damage self values time r)
    ∧ Stats.apply_damage self values time r
        = Stats.apply_damage self values time
            { crit := true, freeze := true, ignite := true, shock := true } := by
  constructor
  · intro a b c
    simp [Stats.apply_damage, freezeDurationOf, igniteOf, shockOf, damageMultOf,
      critAndMult, shockEffectOf]
  · simp [Stats.apply_damage, freezeDurationOf, igniteOf, shockOf, damageMultOf,
      critAndMult, shockEffectOf, h]

/-- Witness for C4: the crit-bypass equality at a concrete defender,
attacker, and roll oracle whose status rolls all fail. -/
theorem crit_bypasses_status_rolls_witness :
    Stats.apply_damage defenderBig attackerCold 0 rollsCrit
      = Stats.apply_damage defenderBig attackerCold 0
          { crit := true, freeze := true, ignite := true, shock := true } :=
  (crit_bypasses_status_rolls defenderBig attackerCold 0 rollsCrit rfl).2

/-- Counterexample for C5: a defender frozen until time 100 is hit at
time 0 by a critical cold hit computing a 10 s freeze; the expiry is
assigned to 0 + 10 = 10, strictly shortening the remaining freeze time,
which the claim says can never happen. -/
theorem freeze_reapply_shortens :
    (0 : ℚ) < defenderFrozen.freeze_time
    ∧ (defenderFrozen.apply_damage attackerCold 0 rollsCrit).1.freeze_time = 10
    ∧ (defenderFrozen.apply_damage attackerCold 0 rollsCrit).1.freeze_time
        < defenderFrozen.freeze_time := by
  have hd : freezeDurationOf defenderFrozen attackerCold rollsCrit = 10 := by
    norm_num [freezeDurationOf, damageMultOf, critAndMult, shockEffectOf, maxRate,
      rollsCrit, attackerCold, defenderFrozen, Stats.new, StatValues.default]
  have hft : (defenderFrozen.apply_damage attackerCold 0 rollsCrit).1.freeze_time = 10 := by
    rw [applyDamage_freeze_time defenderFrozen attackerCold 0 rollsCrit rfl, hd,
      if_pos (by norm_num : (1:ℚ)/10 < 10)]
    norm_num
  refine ⟨by norm_num [defenderFrozen, Stats.new], hft, ?_⟩
  rw [hft]
  norm_num [defenderFrozen, Stats.new]

/-- C5 (amended): re-applying freeze assigns, rather than adds, the new
expiry: whenever the newly computed freeze duration exceeds 0.1 s the
expiry becomes time + duration — even when that shortens the remaining
freeze — and otherwise the expiry is untouched. -/
theorem freeze_reapply_assigns (self : Stats) (values : StatValues) (time : ℚ) (r : Rolls)
    (hdead : self.dead = false) (hinv : self.values.is_invincible = false) :
    (Stats.apply_damage self values time r).1.freeze_time
      = if 1/10 < freezeDurationOf self values r then time + freezeDurationOf self values r
        else self.freeze_time :=
  applyDamage_freeze_time self values time r (by rw [hdead, hinv]; rfl)

/-- Witness for C5: the assignment equation at the concrete frozen
defender of the counterexample. -/
theorem freeze_reapply_assigns_witness :
    (defenderFrozen.apply_damage attackerCold 0 rollsCrit).1.freeze_time
      = if 1/10 < freezeDurationOf defenderFrozen attackerCold rollsCrit then
          0 + freezeDurationOf defenderFrozen attackerCold rollsCrit
        else defenderFrozen.freeze_time :=
  freeze_reapply_assigns defenderFrozen attackerCold 0 rollsCrit rfl rfl

end BladeBlade

namespace BladeBlade

/-- C6: propagation payloads are non-trivial only when the attacker carries
the propagate flag and the defender was not already under the status
before the hit (conjuncts 1-3); a hit on an already-afflicted defender
returns a trivial payload (conjuncts 4-6); and a hit that newly afflicts a
fresh defender carries the newly applied status exactly once — the payload
equals the status just recorded (conjuncts 7-9). -/
theorem propagation_only_on_fresh_status (self : Stats) (values : StatValues) (time : ℚ)
    (r : Rolls) :
    ((Stats.apply_damage self values time r).2.freeze_propagation ≠ 0 →
        values.freeze_propagate = true ∧ ¬ time < self.freeze_time)
    ∧ ((Stats.apply_damage self values time r).2.ignite_propagation.active = true →
        values.ignite_propagate = true ∧ self.ignite_instances = [])
    ∧ ((Stats.apply_damage self values time r).2.shock_propagation.active = true →
        values.shock_propagate = true ∧ self.shock_instances = [])
    ∧ (time < self.freeze_time →
        (Stats.apply_damage self values time r).2.freeze_propagation = 0)
    ∧ (self.ignite_instances ≠ [] →
        (Stats.apply_damage self values time r).2.ignite_propagation = EffectAndDuration.new)
    ∧ (self.shock_instances ≠ [] →
        (Stats.apply_damage self values time r).2.shock_propagation = EffectAndDuration.new)
    ∧ (values.freeze_propagate = true → ¬ time < self.freeze_time →
        time + 1/10 < (Stats.apply_damage self values time r).1.freeze_time →
        (Stats.apply_damage self values time r).2.freeze_propagation
            = (Stats.apply_damage self values time r).1.freeze_time - time
          ∧ 0 < (Stats.apply_damage self values time r).2.freeze_propagation)
    ∧ (values.ignite_propagate = true → self.ignite_instances = [] →
        (Stats.apply_damage self values time r).1.ignite_instances ≠ [] →
        (Stats.apply_damage self values time r).2.ignite_propagation.active = true)
    ∧ (values.shock_propagate = true → self.shock_instances = [] →
        (Stats.apply_damage self values time r).1.shock_instances ≠ [] →
        (Stats.apply_damage self values time r).2.shock_propagation.active = true) := by
  cases hb : (self.dead || self.values.is_invincible) with
  | true =>
    rw [applyDamage_dead self values time r hb]
    refine ⟨?_, ?_, ?_, ?_, ?_, ?_, ?_, ?_, ?_⟩
    · intro hne
      exact absurd rfl hne
    · intro hh
      simp [DamageOutcome.zero, EffectAndDuration.active, EffectAndDuration.new] at hh
    · intro hh
      simp [DamageOutcome.zero, EffectAndDuration.active, EffectAndDuration.new] at hh
    · intro _; rfl
    · intro _; rfl
    · intro _; rfl
    · intro _ hold hlt
      exfalso
      simp only [not_lt] at hold
      simp only at hlt
      linarith
    · intro _ hempty hne
      exact absurd hempty hne
    · intro _ hempty hne
      exact absurd hempty hne
  | false =>
    rw [applyDamage_freeze_propagation self values time r hb,
      applyDamage_ignite_propagation self values time r hb,
      applyDamage_shock_propagation self values time r hb,
      applyDamage_freeze_time self values time r hb,
      applyDamage_ignite_instances self values time r hb,
      applyDamage_shock_instances self values time r hb]
    refine ⟨?_, ?_, ?_, ?_, ?_, ?_, ?_, ?_, ?_⟩
    · intro hne
      split at hne
      · next hcond =>
        simp only [Bool.and_eq_true, Bool.not_eq_true', decide_eq_false_iff_not] at hcond
        exact hcond
      · exact absurd rfl hne
    · intro hact
      split at hact
      · next hcond =>
        simp only [Bool.and_eq_true, List.isEmpty_iff] at hcond
        exact hcond
      · simp [EffectAndDuration.active, EffectAndDuration.new] at hact
    · intro hact
      split at hact
      · next hcond =>
        simp only [Bool.and_eq_true, List.isEmpty_iff] at hcond
        exact hcond
      · simp [EffectAndDuration.active, EffectAndDuration.new] at hact
    · intro hold
      rw [if_neg]
      simp [hold]
    · intro hne
      rw [if_neg]
      simp only [Bool.and_eq_true, List.isEmpty_iff]
      exact fun hc => hne hc.2
    · intro hne
      rw [if_neg]
      simp only [Bool.and_eq_true, List.isEmpty_iff]
      exact fun hc => hne hc.2
    · intro hflag hold hlt
      have hcond : (values.freeze_propagate && !(decide (time < self.freeze_time))) = true := by
        simp [hflag, hold]
      rw [if_pos hcond]
      by_cases hgt : 1/10 < freezeDurationOf self values r
      · rw [if_pos hgt] at hlt ⊢
        constructor
        · ring
        · linarith
      · rw [if_neg hgt] at hlt
        exfalso
        simp only [not_lt] at hold
        linarith
    · intro hflag hempty hne
      rw [hempty] at hne
      simp only [List.nil_append] at hne
      have hact : (igniteOf self values r).active = true := by
        by_contra hna
        simp only [Bool.not_eq_true] at hna
        rw [if_neg (by simp [hna])] at hne
        exact hne rfl
      rw [if_pos (by simp [hflag, hempty])]
      exact hact
    · intro hflag hempty hne
      rw [hempty] at hne
      simp only [List.nil_append] at hne
      have hact : (shockOf self values r).active = true := by
        by_contra hna
        simp only [Bool.not_eq_true] at hna
        rw [if_neg (by simp [hna])] at hne
        exact hne rfl
      rw [if_pos (by simp [hflag, hempty])]
      exact hact

end BladeBlade

namespace BladeBlade

/-- Witness for C6: a hit at time 5 on a defender frozen until time 100 by
an attacker with the freeze-propagate flag yields a trivial freeze
propagation payload (no re-trigger on an already-frozen defender). -/
theorem propagation_only_on_fresh_status_witness :
    (Stats.apply_damage defenderFrozen attackerColdProp 5 rollsCrit).2.freeze_propagation = 0 :=
  (propagation_only_on_fresh_status defenderFrozen attackerColdProp 5 rollsCrit).2.2.2.1
    (by norm_num [defenderFrozen, Stats.new])

end BladeBlade

namespace BladeBlade

theorem exceptBind_ok {α β : Type} (a : α) (f : α → Except GenErr β) :
    (Except.ok a >>= f) = f a := rfl

theorem exceptBind_error {α β : Type} (e : GenErr) (f : α → Except GenErr β) :
    ((Except.error e : Except GenErr α) >>= f) = Except.error e := rfl

theorem distinctAffixKinds_bind {α : Type} (e : Except GenErr α) (f : α → Except GenErr Item)
    (h : ∀ a, e = .ok a → distinctAffixKinds (f a) = true) :
    distinctAffixKinds (e >>= f) = true := by
  cases e with
  | error e => rfl
  | ok a => exact h a rfl

theorem rollAffix_fresh {κ : Type} [DecidableEq κ] (fuel : Nat) (weights : List (κ × Nat))
    (acc : List (κ × ℤ × ℚ)) (level : ℤ) (r : Rng) (a : κ × ℤ × ℚ) (r' : Rng)
    (h : rollAffix fuel weights acc level r = .ok (a, r')) :
    ∀ p ∈ acc, p.1 ≠ a.1 := by
  induction fuel generalizing r with
  | zero => simp [rollAffix] at h
  | succ fuel ih =>
    rw [rollAffix] at h
    cases hc : chooseWeighted weights r with
    | error e => rw [hc, exceptBind_error] at h; cases h
    | ok kr =>
      obtain ⟨k, r1⟩ := kr
      rw [hc, exceptBind_ok] at h
      dsimp only at h
      cases hf : acc.find? (fun p => decide (p.1 = k)) with
      | some q => rw [hf] at h; exact ih r1 h
      | none =>
        rw [hf] at h
        cases hg : genRangeIncl (Int.tdiv level 2) level r1 with
        | error e => rw [hg, exceptBind_error] at h; cases h
        | ok tr =>
          obtain ⟨tier, r2⟩ := tr
          rw [hg, exceptBind_ok] at h
          dsimp only at h
          simp only [Except.ok.injEq, Prod.mk.injEq] at h
          intro p hp
          have hfind := List.find?_eq_none.mp hf p hp
          simp only [decide_eq_true_eq] at hfind
          rw [← h.1]
          simpa using hfind

theorem rollAffixes_nodup {κ : Type} [DecidableEq κ] (fuel : Nat) (weights : List (κ × Nat))
    (level : ℤ) (n : Nat) :
    ∀ (acc : List (κ × ℤ × ℚ)) (r : Rng) (l : List (κ × ℤ × ℚ)) (r' : Rng),
      (acc.map (fun p => p.1)).Nodup →
      rollAffixes fuel weights level n acc r = .ok (l, r') →
      (l.map (fun p => p.1)).Nodup := by
  induction n with
  | zero =>
    intro acc r l r' hacc h
    rw [rollAffixes] at h
    simp only [Except.ok.injEq, Prod.mk.injEq] at h
    rw [← h.1]
    exact hacc
  | succ n ih =>
    intro acc r l r' hacc h
    rw [rollAffixes] at h
    cases ha : rollAffix fuel weights acc level r with
    | error e => rw [ha, exceptBind_error] at h; cases h
    | ok ar =>
      obtain ⟨a, r1⟩ := ar
      rw [ha, exceptBind_ok] at h
      dsimp only at h
      have hfresh := rollAffix_fresh _ _ _ _ _ _ _ ha
      refine ih (acc ++ [a]) r1 l r' ?_ h
      simp only [List.map_append, List.map_cons, List.map_nil]
      rw [List.nodup_append]
      refine ⟨hacc, List.nodup_singleton _, ?_⟩
      intro x hx hy
      simp only [List.mem_singleton] at hy
      obtain ⟨p, hp, hpx⟩ := List.mem_map.mp hx
      exact hfresh p hp (by rw [hpx, hy])

theorem generate_unique_distinct (r : Rng) (item : Item) (r' : Rng)
    (h : generate_unique r = .ok (item, r')) :
    (item.prefixes.map (fun p => p.1)).Nodup ∧ (item.suffixes.map (fun s => s.1)).Nodup := by
  rw [generate_unique] at h
  cases hg : genRangeExcl 0 4 r with
  | error e => rw [hg, exceptBind_error] at h; cases h
  | ok nr =>
    obtain ⟨n, r1⟩ := nr
    rw [hg, exceptBind_ok] at h
    dsimp only at h
    split at h <;>
      (simp only [Except.ok.injEq, Prod.mk.injEq] at h; rw [← h.1]; decide)

theorem nodup_map_insertionSort {α β : Type} [DecidableEq β] (rel : α → α → Prop)
    [DecidableRel rel] (l : List α) (f : α → β)
    (h : (l.map f).Nodup) : ((l.insertionSort rel).map f).Nodup :=
  (((List.perm_insertionSort rel l).map f).nodup_iff).mpr h

/-- C9: every item returned by generate_item has pairwise-distinct prefix
affix kinds and pairwise-distinct suffix affix kinds, for every item kind,
crystal level, character level, fuel bound, and RNG stream. -/
theorem generated_item_distinct_affix_kinds (kind : ItemKind) (c level : ℤ) (fuel : Nat)
    (r : Rng) :
    distinctAffixKinds (generate_item kind c level fuel r) = true := by
  rw [generate_item.eq_def]
  apply distinctAffixKinds_bind
  rintro w -
  apply distinctAffixKinds_bind
  rintro ⟨rarity, r1⟩ -
  dsimp only
  by_cases hu : rarity = Rarity.Unique
  · rw [if_pos hu]
    apply distinctAffixKinds_bind
    rintro ⟨item, r2⟩ hok
    obtain ⟨h1, h2⟩ := generate_unique_distinct _ _ _ hok
    simp [distinctAffixKinds, h1, h2]
  · rw [if_neg hu]
    apply distinctAffixKinds_bind
    rintro ⟨na, ma⟩ -
    apply distinctAffixKinds_bind
    rintro ⟨nums, r2⟩ -
    apply distinctAffixKinds_bind
    rintro ⟨prefixes, r3⟩ hp
    apply distinctAffixKinds_bind
    rintro ⟨suffixes, r4⟩ hs
    have hp2 := rollAffixes_nodup fuel _ level nums.1.toNat [] r2 prefixes r3 (by simp) hp
    have hs2 := rollAffixes_nodup fuel _ level nums.2.toNat [] r3 suffixes r4 (by simp) hs
    have hps := nodup_map_insertionSort (fun a b => a.1.idx ≤ b.1.idx) prefixes _ hp2
    have hss := nodup_map_insertionSort (fun a b => a.1.idx ≤ b.1.idx) suffixes _ hs2
    cases rarity with
    | Unique => exact absurd rfl hu
    | Normal => simp [distinctAffixKinds, exceptBind_error]
    | Magic =>
      dsimp only
      rw [exceptBind_ok]
      simp [distinctAffixKinds, hps, hss]
    | Rare =>
      dsimp only
      rw [exceptBind_ok]
      simp [distinctAffixKinds, hps, hss]

end BladeBlade

namespace BladeBlade

theorem ne_panic_bind {α β : Type} (e : Except GenErr α) (f : α → Except GenErr β)
    (he : e ≠ .error .panicked) (hf : ∀ a, e = .ok a → f a ≠ .error .panicked) :
    (e >>= f) ≠ .error .panicked := by
  cases e with
  | error err =>
    cases err with
    | panicked => exact absurd rfl he
    | fuelOut => rw [exceptBind_error]; simp
  | ok a => rw [exceptBind_ok]; exact hf a rfl

theorem genRangeIncl_ne_panic (lo hi : ℤ) (r : Rng) (h : lo ≤ hi) :
    genRangeIncl lo hi r ≠ .error .panicked := by
  rw [genRangeIncl, if_neg (not_lt.mpr h)]
  simp

theorem genRangeExcl_ne_panic (lo hi : ℤ) (r : Rng) (h : lo < hi) :
    genRangeExcl lo hi r ≠ .error .panicked := by
  rw [genRangeExcl, if_neg (not_le.mpr h)]
  simp

theorem pickByWeight_lt {α : Type} :
    ∀ (l : List (α × Nat)) (k : Nat), k < (l.map (fun aw => aw.2)).sum →
      ∃ a, pickByWeight l k = some a := by
  intro l
  induction l with
  | nil => intro k hk; simp at hk
  | cons aw rest ih =>
    obtain ⟨a, w⟩ := aw
    intro k hk
    rw [pickByWeight]
    by_cases hlt : k < w
    · rw [if_pos hlt]; exact ⟨a, rfl⟩
    · rw [if_neg hlt]
      apply ih
      simp only [List.map_cons, List.sum_cons] at hk
      omega

theorem pickByWeight_mem {α : Type} :
    ∀ (l : List (α × Nat)) (k : Nat) (a : α), pickByWeight l k = some a →
      a ∈ l.map (fun aw => aw.1) := by
  intro l
  induction l with
  | nil => intro k a h; simp [pickByWeight] at h
  | cons aw rest ih =>
    obtain ⟨b, w⟩ := aw
    intro k a h
    rw [pickByWeight] at h
    by_cases hlt : k < w
    · rw [if_pos hlt] at h
      simp only [Option.some.injEq] at h
      simp [← h]
    · rw [if_neg hlt] at h
      simp only [List.map_cons, List.mem_cons]
      exact Or.inr (ih _ _ h)

theorem chooseWeighted_ne_panic {α : Type} (l : List (α × Nat)) (r : Rng)
    (h : (l.map (fun aw => aw.2)).sum ≠ 0) :
    chooseWeighted l r ≠ .error .panicked := by
  rw [chooseWeighted]
  dsimp only [Rng.next]
  rw [if_neg h]
  obtain ⟨a, ha⟩ := pickByWeight_lt l (r.stream r.cursor % (l.map (fun aw => aw.2)).sum)
    (Nat.mod_lt _ (Nat.pos_of_ne_zero h))
  rw [ha]
  simp

theorem chooseWeighted_mem {α : Type} (l : List (α × Nat)) (r : Rng) (a : α) (r' : Rng)
    (h : chooseWeighted l r = .ok (a, r')) : a ∈ l.map (fun aw => aw.1) := by
  rw [chooseWeighted] at h
  dsimp only [Rng.next] at h
  by_cases hs : (l.map (fun aw => aw.2)).sum = 0
  · rw [if_pos hs] at h; cases h
  · rw [if_neg hs] at h
    cases hp : pickByWeight l (r.stream r.cursor % (l.map (fun aw => aw.2)).sum) with
    | none => rw [hp] at h; cases h
    | some b =>
      rw [hp] at h
      simp only [Except.ok.injEq, Prod.mk.injEq] at h
      rw [← h.1]
      exact pickByWeight_mem _ _ _ hp

theorem rollCounts_ne_panic (num mina : ℤ) (hnum : 0 ≤ num) :
    ∀ (fuel : Nat) (r : Rng), rollCounts fuel num mina r ≠ .error .panicked := by
  intro fuel
  induction fuel with
  | zero => intro r; rw [rollCounts]; simp
  | succ fuel ih =>
    intro r
    rw [rollCounts]
    apply ne_panic_bind _ _ (genRangeIncl_ne_panic _ _ _ hnum)
    rintro ⟨np, r1⟩ -
    dsimp only
    apply ne_panic_bind _ _ (genRangeIncl_ne_panic _ _ _ hnum)
    rintro ⟨ns, r2⟩ -
    dsimp only
    split
    · simp
    · exact ih r2

theorem rollAffix_ne_panic {κ : Type} [DecidableEq κ] (weights : List (κ × Nat)) (level : ℤ)
    (hw : (weights.map (fun aw => aw.2)).sum ≠ 0) (hl : Int.tdiv level 2 ≤ level) :
    ∀ (fuel : Nat) (acc : List (κ × ℤ × ℚ)) (r : Rng),
      rollAffix fuel weights acc level r ≠ .error .panicked := by
  intro fuel
  induction fuel with
  | zero => intro acc r; rw [rollAffix]; simp
  | succ fuel ih =>
    intro acc r
    rw [rollAffix]
    apply ne_panic_bind _ _ (chooseWeighted_ne_panic _ _ hw)
    rintro ⟨k, r1⟩ -
    dsimp only
    cases hf : acc.find? (fun p => decide (p.1 = k)) with
    | some q => exact ih acc r1
    | none =>
      apply ne_panic_bind _ _ (genRangeIncl_ne_panic _ _ _ hl)
      rintro ⟨tier, r2⟩ -
      dsimp only
      simp

theorem rollAffixes_ne_panic {κ : Type} [DecidableEq κ] (weights : List (κ × Nat)) (level : ℤ)
    (hw : (weights.map (fun aw => aw.2)).sum ≠ 0) (hl : Int.tdiv level 2 ≤ level) (fuel : Nat) :
    ∀ (n : Nat) (acc : List (κ × ℤ × ℚ)) (r : Rng),
      rollAffixes fuel weights level n acc r ≠ .error .panicked := by
  intro n
  induction n with
  | zero => intro acc r; rw [rollAffixes]; simp
  | succ n ih =>
    intro acc r
    rw [rollAffixes]
    apply ne_panic_bind _ _ (rollAffix_ne_panic weights level hw hl fuel acc r)
    rintro ⟨a, r1⟩ -
    dsimp only
    exact ih _ _

theorem generate_unique_ne_panic (r : Rng) : generate_unique r ≠ .error .panicked := by
  rw [generate_unique]
  apply ne_panic_bind _ _ (genRangeExcl_ne_panic 0 4 r (by norm_num))
  rintro ⟨n, r1⟩ -
  dsimp only
  split <;> simp

theorem tdiv_two_le_self (level : ℤ) (h : 0 ≤ level) : Int.tdiv level 2 ≤ level := by
  cases level with
  | ofNat n => exact Int.ofNat_le.mpr (Nat.div_le_self n 2)
  | negSucc n => exact absurd h (Int.negSucc_lt_zero n).not_le

theorem rarityWeightsFor_pos (c : ℤ) (h0 : 0 ≤ c) (h7 : c ≤ 7) (w : Nat × Nat × Nat)
    (h : rarityWeightsFor c = .ok w) : 0 < w.1 := by
  obtain ⟨w1, w2, w3⟩ := w
  interval_cases c <;> simp [rarityWeightsFor] at h <;> omega

theorem prefixWeightsFor_sum_ne (kind : ItemKind) :
    (((prefixWeightsFor kind)).map (fun aw => aw.2)).sum ≠ 0 := by
  cases kind <;> decide

theorem suffixWeightsFor_sum_ne (kind : ItemKind) :
    (((suffixWeightsFor kind)).map (fun aw => aw.2)).sum ≠ 0 := by
  cases kind <;> decide

end BladeBlade

namespace BladeBlade

/-- Counterexample for C1: at crystal level 8 (one past the highest match
arm) the rarity-weight lookup of generate_item hits the
`_ => unreachable!()` arm and panics, for a concrete RNG stream — the
function is not total over every crystal-level integer. -/
theorem generate_item_panics_crystal_level_eight :
    generate_item .Red 8 3 50 rngOne = .error .panicked := by
  rw [generate_item.eq_def]
  rw [show rarityWeightsFor 8 = .error .panicked from rfl, exceptBind_error]

/-- C1 (amended): generate_item never panics — the rarity-weight lookup,
every weighted choice's unwrap, and the tier roll in [level/2, level] all
succeed — for every item kind, crystal level in [0, 7], character level >=
0, fuel bound, and RNG stream; the only possible non-item outcome is
exhausting the fuel bounding the source's probabilistic retry loops.
Outside crystal levels 0-7, the rarity-weight match panics. -/
theorem generate_item_no_panic (kind : ItemKind) (c level : ℤ) (h0 : 0 ≤ c) (h7 : c ≤ 7)
    (hlevel : 0 ≤ level) (fuel : Nat) (r : Rng) :
    generate_item kind c level fuel r ≠ .error .panicked := by
  have hl := tdiv_two_le_self level hlevel
  rw [generate_item.eq_def]
  apply ne_panic_bind
  · intro hp
    have h8 : ∀ w, rarityWeightsFor c ≠ .ok w := by
      intro w hw
      rw [hw] at hp
      cases hp
    interval_cases c
    · exact h8 _ rfl
    · exact h8 _ rfl
    · exact h8 _ rfl
    · exact h8 _ rfl
    · exact h8 _ rfl
    · exact h8 _ rfl
    · exact h8 _ rfl
    · exact h8 _ rfl
  · intro w hw
    apply ne_panic_bind
    · apply chooseWeighted_ne_panic
      have hpos := rarityWeightsFor_pos c h0 h7 w hw
      simp only [List.map_cons, List.map_nil, List.sum_cons, List.sum_nil]
      omega
    · rintro ⟨rarity, r1⟩ hch
      dsimp only
      have hmem := chooseWeighted_mem _ _ _ _ hch
      simp only [List.map_cons, List.map_nil, List.mem_cons, List.not_mem_nil, or_false] at hmem
      by_cases hu : rarity = Rarity.Unique
      · rw [if_pos hu]
        apply ne_panic_bind _ _ (generate_unique_ne_panic r1)
        rintro ⟨item, r2⟩ -
        dsimp only
        simp
      · rw [if_neg hu]
        have hmr : rarity = Rarity.Magic ∨ rarity = Rarity.Rare := by
          rcases hmem with hm | hm | hm
          · exact Or.inl hm
          · exact Or.inr hm
          · exact absurd hm hu
        have hcounts : ∃ cc : ℤ × ℤ, affixCountsFor rarity = .ok cc ∧ 0 ≤ cc.1 := by
          rcases hmr with hm | hm <;> subst hm
          · exact ⟨(1, 1), rfl, by norm_num⟩
          · exact ⟨(3, 3), rfl, by norm_num⟩
        obtain ⟨cc, hcc, hcc0⟩ := hcounts
        obtain ⟨c1, c2⟩ := cc
        simp only at hcc0
        apply ne_panic_bind
        · rw [hcc]; simp
        · rintro ⟨na, ma⟩ hna
          dsimp only
          rw [hcc] at hna
          simp only [Except.ok.injEq, Prod.mk.injEq] at hna
          apply ne_panic_bind _ _ (rollCounts_ne_panic na ma (by omega) fuel r1)
          rintro ⟨nums, r2⟩ -
          dsimp only
          apply ne_panic_bind _ _
            (rollAffixes_ne_panic _ level (prefixWeightsFor_sum_ne kind) hl fuel _ _ _)
          rintro ⟨prefixes, r3⟩ -
          dsimp only
          apply ne_panic_bind _ _
            (rollAffixes_ne_panic _ level (suffixWeightsFor_sum_ne kind) hl fuel _ _ _)
          rintro ⟨suffixes, r4⟩ -
          rcases hmr with hm | hm <;> subst hm
          · dsimp only
            rw [exceptBind_ok]
            simp
          · dsimp only
            rw [exceptBind_ok]
            simp

/-- Witness for C1: the no-panic theorem applied at a concrete in-range
input. -/
theorem generate_item_no_panic_witness :
    generate_item .Red 3 5 20 rngOne ≠ .error .panicked :=
  generate_item_no_panic .Red 3 5 (by norm_num) (by norm_num) (by norm_num) 20 rngOne

end BladeBlade

namespace BladeBlade

theorem dedupByKey_mem_keys : ∀ (l : List (Bool × Nat)) (id : Nat),
    (id ∈ (dedupByKey l).map (fun p => p.2)) ↔ id ∈ l.map (fun p => p.2) := by
  intro l
  induction l using dedupByKey.induct with
  | case1 => simp [dedupByKey]
  | case2 a => simp [dedupByKey]
  | case3 a b rest hab ih =>
    intro id
    rw [dedupByKey, if_pos hab]
    rw [ih id]
    simp [hab]
  | case4 a b rest hab ih =>
    intro id
    rw [dedupByKey, if_neg hab]
    simp only [List.map_cons, List.mem_cons]
    rw [ih id]
    simp

end BladeBlade

namespace BladeBlade

theorem dedupByKey_keys_nodup : ∀ (l : List (Bool × Nat)),
    List.Sorted (fun a b => a.2 ≤ b.2) l → ((dedupByKey l).map (fun p => p.2)).Nodup := by
  intro l
  induction l using dedupByKey.induct with
  | case1 => intro _; simp [dedupByKey]
  | case2 a => intro _; simp [dedupByKey]
  | case3 a b rest hab ih =>
    intro hs
    rw [dedupByKey, if_pos hab]
    apply ih
    rw [List.sorted_cons] at hs ⊢
    obtain ⟨ha, hs2⟩ := hs
    rw [List.sorted_cons] at hs2
    exact ⟨fun c hc => ha c (List.mem_cons_of_mem _ hc), hs2.2⟩
  | case4 a b rest hab ih =>
    intro hs
    rw [dedupByKey, if_neg hab]
    rw [List.sorted_cons] at hs
    obtain ⟨ha, hs2⟩ := hs
    simp only [List.map_cons, List.nodup_cons]
    refine ⟨?_, ih hs2⟩
    intro hmem
    rw [dedupByKey_mem_keys] at hmem
    simp only [List.map_cons, List.mem_cons] at hmem
    rcases hmem with hm | hm
    · exact hab hm
    · obtain ⟨p, hp, hpx⟩ := List.mem_map.mp hm
      rw [List.sorted_cons] at hs2
      have hbx := hs2.1 p hp
      have hax := ha b (List.mem_cons_self b rest)
      omega

theorem despawnAll_ok : ∀ (l : List (Bool × Nat)) (w : ResolveState),
    w.live.Nodup → (l.map (fun p => p.2)).Nodup →
    (∀ e ∈ l, e.2 ∈ w.live) →
    ∃ w', despawnAll w l = .ok w'
      ∧ w'.despawnLog = w.despawnLog ++ l.map (fun p => p.2)
      ∧ w'.nextId = w.nextId
      ∧ w'.live.Nodup
      ∧ (∀ id, id ∈ w'.live ↔ id ∈ w.live ∧ id ∉ l.map (fun p => p.2)) := by
  intro l
  induction l with
  | nil =>
    intro w hw _ _
    exact ⟨w, rfl, by simp, rfl, hw, by simp⟩
  | cons e rest ih =>
    intro w hw hk hmem
    have he : e.2 ∈ w.live := hmem e (List.mem_cons_self e rest)
    have hone : despawnOne w e.2
        = .ok { w with live := w.live.erase e.2, despawnLog := w.despawnLog ++ [e.2] } := by
      rw [despawnOne, if_pos he]
    rw [despawnAll, hone]
    simp only [List.map_cons, List.nodup_cons] at hk
    have herase_nodup : (w.live.erase e.2).Nodup := hw.erase e.2
    have hmem2 : ∀ e2 ∈ rest, e2.2 ∈ w.live.erase e.2 := by
      intro e2 he2
      rw [hw.mem_erase_iff]
      refine ⟨?_, hmem e2 (List.mem_cons_of_mem _ he2)⟩
      intro heq
      exact hk.1 (heq ▸ List.mem_map_of_mem (fun p => p.2) he2)
    obtain ⟨w', h1, h2, h3, h4, h5⟩ :=
      ih { w with live := w.live.erase e.2, despawnLog := w.despawnLog ++ [e.2] }
        herase_nodup hk.2 hmem2
    refine ⟨w', h1, ?_, h3, h4, ?_⟩
    · rw [h2]
      simp
    · intro id
      rw [h5 id]
      simp only [List.map_cons, List.mem_cons]
      rw [hw.mem_erase_iff]
      tauto

theorem runSpawns_live_nodup (w : ResolveState) (n : Nat) (hw : w.live.Nodup)
    (hfresh : ∀ id ∈ w.live, id < w.nextId) : (runSpawns w n).live.Nodup := by
  rw [runSpawns]
  dsimp only
  rw [List.nodup_append]
  refine ⟨hw, ?_, ?_⟩
  · apply List.Nodup.map
    · intro x y hxy
      simp only at hxy
      omega
    · exact List.nodup_range n
  · intro x hx hy
    obtain ⟨i, hi, hix⟩ := List.mem_map.mp hy
    have := hfresh x hx
    omega

/-- C7: the deferred-pipeline resolution interprets all queued effects,
then executes all queued spawn closures, and only then despawns; the
`to_die` list is sorted and deduplicated by entity id before despawning,
so when every queued-to-die entity is live, despawning succeeds without
error, every such entity is despawned exactly once (the despawn log has no
duplicates and contains exactly the queued ids), no freshly spawned entity
is despawned, and the final world is the spawned world minus the queued
ids. -/
theorem deferred_resolution_despawns_once (w : ResolveState)
    (onDeath : Nat → List DeferredEffect) (effects0 : List (Nat × List DeferredEffect))
    (to_die0 : List (Bool × Nat))
    (hw : w.live.Nodup) (hlog : w.despawnLog = [])
    (hqueued : ∀ id ∈ queuedDeathIds onDeath effects0 to_die0, id ∈ w.live)
    (hfresh : ∀ id ∈ w.live, id < w.nextId) :
    ∃ w', resolveDeferred w onDeath effects0 to_die0 = .ok w'
      ∧ w'.despawnLog.Nodup
      ∧ (∀ id, id ∈ w'.despawnLog ↔ id ∈ queuedDeathIds onDeath effects0 to_die0)
      ∧ (∀ id ∈ w'.despawnLog, id < w.nextId)
      ∧ (∀ id, id ∈ w'.live ↔
          ((id ∈ w.live ∨ id ∈ (List.range (spawnCount onDeath effects0 to_die0)).map
              (fun i => w.nextId + i))
            ∧ id ∉ queuedDeathIds onDeath effects0 to_die0)) := by
  set step := interpretEffects
    (effects0 ++ (to_die0.filter (fun p => p.1)).map (fun p => (p.2, onDeath p.2)))
    to_die0 with hstep
  have hq : queuedDeathIds onDeath effects0 to_die0 = step.1.map (fun p => p.2) := by
    rw [queuedDeathIds]
  have hsc : spawnCount onDeath effects0 to_die0 = step.2 := by
    rw [spawnCount]
  have hperm : (step.1.insertionSort (fun a b => a.2 ≤ b.2)).Perm step.1 :=
    List.perm_insertionSort _ _
  have hsorted : List.Sorted (fun a b => a.2 ≤ b.2)
      (step.1.insertionSort (fun a b => a.2 ≤ b.2)) := List.sorted_insertionSort _ _
  set dd := dedupByKey (step.1.insertionSort (fun a b => a.2 ≤ b.2)) with hdd
  have hddnodup : (dd.map (fun p => p.2)).Nodup := dedupByKey_keys_nodup _ hsorted
  have hddmem : ∀ id, (id ∈ dd.map (fun p => p.2))
      ↔ id ∈ queuedDeathIds onDeath effects0 to_die0 := by
    intro id
    rw [hdd, dedupByKey_mem_keys, hq]
    exact (hperm.map (fun p => p.2)).mem_iff
  have hmem2 : ∀ e ∈ dd, e.2 ∈ (runSpawns w step.2).live := by
    intro e he
    rw [runSpawns]
    dsimp only
    apply List.mem_append_left
    exact hqueued e.2 ((hddmem e.2).mp (List.mem_map_of_mem (fun p => p.2) he))
  obtain ⟨w', h1, h2, h3, h4, h5⟩ := despawnAll_ok dd (runSpawns w step.2)
    (runSpawns_live_nodup w step.2 hw hfresh) hddnodup hmem2
  have hlog2 : (runSpawns w step.2).despawnLog = [] := hlog
  refine ⟨w', h1, ?_, ?_, ?_, ?_⟩
  · rw [h2, hlog2]
    simpa using hddnodup
  · intro id
    rw [h2, hlog2, List.nil_append]
    exact hddmem id
  · intro id hid
    rw [h2, hlog2, List.nil_append] at hid
    exact hfresh id (hqueued id ((hddmem id).mp hid))
  · intro id
    rw [h5 id]
    have hrs : ∀ x, x ∈ (runSpawns w step.2).live
        ↔ (x ∈ w.live ∨ x ∈ (List.range step.2).map (fun i => w.nextId + i)) := by
      intro x
      rw [runSpawns]
      dsimp only
      exact List.mem_append
    rw [hrs id, hddmem id, hsc]

end BladeBlade

namespace BladeBlade

/-- Witness for C7: the resolution theorem at a concrete world with three
live entities, one effect-queued death, one spawn request, and entity 2
queued to die twice. -/
theorem deferred_resolution_despawns_once_witness :
    ∃ w', resolveDeferred worldC7 onDeathC7 effectsC7 toDieC7 = .ok w'
      ∧ w'.despawnLog.Nodup
      ∧ (∀ id, id ∈ w'.despawnLog ↔ id ∈ queuedDeathIds onDeathC7 effectsC7 toDieC7)
      ∧ (∀ id ∈ w'.despawnLog, id < worldC7.nextId)
      ∧ (∀ id, id ∈ w'.live ↔
          ((id ∈ worldC7.live ∨ id ∈ (List.range (spawnCount onDeathC7 effectsC7 toDieC7)).map
              (fun i => worldC7.nextId + i))
            ∧ id ∉ queuedDeathIds onDeathC7 effectsC7 toDieC7)) :=
  deferred_resolution_despawns_once worldC7 onDeathC7 effectsC7 toDieC7
    (by decide) rfl (by decide) (by decide)

end BladeBlade
